import Mathlib

/-!
# Verification of the MunimAiAssistant conversation and GST engine

Shallow embedding of the claim-relevant parts of the repository:

* `src/utils/data_manager.py` — the GST invoice calculation engine
  (`create_invoice`), the transaction recorder (`record_transaction`) and
  the per-party ledger (`update_ledger`, `get_ledger`);
* `src/utils/session_manager.py` — the keyed session store with its
  30-minute sliding TTL;
* `src/utils/conversation_processor.py` — the message router
  (`process_message`), the idle-state command interpreter
  (`process_initial_command`) and the invoice conversation flow
  (`process_invoice_step`).

Monetary values are modelled as rationals (the Python source uses floats,
but every claim under consideration is exercised at inputs whose
arithmetic is exact).  Wall-clock time is modelled as a natural number of
seconds passed explicitly to each operation; date strings and the
rendering of responses (long HTML strings in the source) are not part of
any claim, so responses are modelled as tags identifying the source
return site.
-/

namespace MunimAI

/-! ## Generic dictionary helpers (Python `dict` on a key type) -/

/-- Python dict lookup `d[k]` / `d.get(k)` on an association list with
unique keys. -/
def dget [BEq κ] : List (κ × α) → κ → Option α
  | [], _ => none
  | p :: rest, k => if p.1 == k then some p.2 else dget rest k

/-- Python dict assignment `d[k] = v`: overwrite the entry in place, else
append a new one. -/
def dset [BEq κ] : List (κ × α) → κ → α → List (κ × α)
  | [], k, v => [(k, v)]
  | p :: rest, k, v => if p.1 == k then (k, v) :: rest else p :: dset rest k v

/-- Python `del d[k]`. -/
def ddel [BEq κ] : List (κ × α) → κ → List (κ × α)
  | [], _ => []
  | p :: rest, k => if p.1 == k then rest else p :: ddel rest k

/-! ## Exact amounts

The Python source computes on floats; every claim under consideration is
exercised at inputs whose float arithmetic is exact, so amounts are
modelled as rational numbers.  The standard arithmetic on `ℚ` is marked
irreducible in core Lean and does not evaluate inside the kernel, so
`Money` wraps `ℚ` with operations built from `mkRat` (which the kernel
does evaluate); the bridge lemmas identify each operation with the
standard one on the underlying rational. -/

structure Money where
  val : ℚ
deriving DecidableEq, Repr

namespace Money

def add (a b : Money) : Money :=
  ⟨mkRat (a.val.num * b.val.den + b.val.num * a.val.den) (a.val.den * b.val.den)⟩

def neg (a : Money) : Money := ⟨mkRat (-a.val.num) a.val.den⟩

def mul (a b : Money) : Money :=
  ⟨mkRat (a.val.num * b.val.num) (a.val.den * b.val.den)⟩

def div (a b : Money) : Money :=
  if 0 ≤ b.val.num then ⟨mkRat (a.val.num * b.val.den) (a.val.den * b.val.num.toNat)⟩
  else ⟨mkRat (-(a.val.num * b.val.den)) (a.val.den * (-b.val.num).toNat)⟩

instance : Add Money := ⟨add⟩
instance : Neg Money := ⟨neg⟩
instance : Sub Money := ⟨fun a b => add a (neg b)⟩
instance : Mul Money := ⟨mul⟩
instance : Div Money := ⟨div⟩
instance (n : ℕ) : OfNat Money n := ⟨⟨OfNat.ofNat n⟩⟩
instance : Zero Money := ⟨⟨0⟩⟩
instance : LT Money := ⟨fun a b => a.val.num * b.val.den < b.val.num * a.val.den⟩
instance : LE Money := ⟨fun a b => a.val.num * b.val.den ≤ b.val.num * a.val.den⟩
instance (a b : Money) : Decidable (a < b) := inferInstanceAs (Decidable (_ < _))
instance (a b : Money) : Decidable (a ≤ b) := inferInstanceAs (Decidable (_ ≤ _))

theorem val_inj {a b : Money} (h : a.val = b.val) : a = b := by
  cases a; cases b; simpa using h

theorem val_den_q_ne (q : ℚ) : ((q.den : ℚ)) ≠ 0 := by
  exact_mod_cast q.den_nz

@[simp]
theorem val_zero : (0 : Money).val = 0 := rfl

@[simp]
theorem val_ofNat (n : ℕ) : (OfNat.ofNat n : Money).val = OfNat.ofNat n := rfl

@[simp]
theorem val_add (a b : Money) : (a + b).val = a.val + b.val := by
  show (Money.add a b).val = _
  rw [Money.add, Rat.mkRat_eq_div]
  conv_rhs => rw [← Rat.num_div_den a.val, ← Rat.num_div_den b.val]
  have ha := val_den_q_ne a.val
  have hb := val_den_q_ne b.val
  push_cast
  field_simp

@[simp]
theorem val_neg (a : Money) : (-a).val = -a.val := by
  show (Money.neg a).val = _
  rw [Money.neg, Rat.mkRat_eq_div]
  conv_rhs => rw [← Rat.num_div_den a.val]
  push_cast
  ring

@[simp]
theorem val_sub (a b : Money) : (a - b).val = a.val - b.val := by
  show (Money.add a (Money.neg b)).val = _
  rw [show Money.add a (Money.neg b) = a + (-b) from rfl]
  rw [val_add, val_neg]
  ring

@[simp]
theorem val_mul (a b : Money) : (a * b).val = a.val * b.val := by
  show (Money.mul a b).val = _
  rw [Money.mul, Rat.mkRat_eq_div]
  conv_rhs => rw [← Rat.num_div_den a.val, ← Rat.num_div_den b.val]
  have ha := val_den_q_ne a.val
  have hb := val_den_q_ne b.val
  push_cast
  field_simp

@[simp]
theorem val_div (a b : Money) : (a / b).val = a.val / b.val := by
  show (Money.div a b).val = _
  by_cases hz : b.val.num = 0
  · have hb0 : b.val = 0 := by
      rw [← Rat.num_div_den b.val, hz]
      simp
    rw [Money.div]
    simp [hz, hb0, Rat.mkRat_eq_div]
  · by_cases hpos : 0 ≤ b.val.num
    · rw [Money.div, if_pos hpos, Rat.mkRat_eq_div]
      conv_rhs => rw [← Rat.num_div_den a.val, ← Rat.num_div_den b.val]
      have ha := val_den_q_ne a.val
      have hb := val_den_q_ne b.val
      have hbn : ((b.val.num : ℚ)) ≠ 0 := by exact_mod_cast hz
      have htn : ((b.val.num.toNat : ℤ)) = b.val.num := Int.toNat_of_nonneg hpos
      have htq : ((b.val.num.toNat : ℚ)) = ((b.val.num : ℚ)) := by exact_mod_cast htn
      push_cast [htq]
      field_simp
    · rw [Money.div, if_neg hpos, Rat.mkRat_eq_div]
      conv_rhs => rw [← Rat.num_div_den a.val, ← Rat.num_div_den b.val]
      have ha := val_den_q_ne a.val
      have hb := val_den_q_ne b.val
      have hbn : ((b.val.num : ℚ)) ≠ 0 := by exact_mod_cast hz
      have htn : (((-b.val.num).toNat : ℤ)) = -b.val.num :=
        Int.toNat_of_nonneg (by omega)
      have htq : (((-b.val.num).toNat : ℚ)) = -((b.val.num : ℚ)) := by exact_mod_cast htn
      push_cast [htq]
      field_simp

theorem lt_iff_val (a b : Money) : a < b ↔ a.val < b.val := by
  show a.val.num * b.val.den < b.val.num * a.val.den ↔ _
  conv_rhs => rw [← Rat.num_div_den a.val, ← Rat.num_div_den b.val]
  rw [div_lt_div_iff₀ (by exact_mod_cast a.val.den_pos) (by exact_mod_cast b.val.den_pos)]
  exact_mod_cast Iff.rfl

theorem le_iff_val (a b : Money) : a ≤ b ↔ a.val ≤ b.val := by
  show a.val.num * b.val.den ≤ b.val.num * a.val.den ↔ _
  conv_rhs => rw [← Rat.num_div_den a.val, ← Rat.num_div_den b.val]
  rw [div_le_div_iff₀ (by exact_mod_cast a.val.den_pos) (by exact_mod_cast b.val.den_pos)]
  exact_mod_cast Iff.rfl

end Money

/-- The accumulating totals loop of the source, as a sum. -/
def moneySum : List Money → Money
  | [] => 0
  | a :: rest => a + moneySum rest

theorem Money.val_moneySum (l : List Money) :
    (moneySum l).val = (l.map Money.val).sum := by
  induction l with
  | nil => simp [moneySum]
  | cons a rest ih => simp [moneySum, ih]

theorem moneySum_append (l1 l2 : List Money) :
    moneySum (l1 ++ l2) = moneySum l1 + moneySum l2 := by
  apply Money.val_inj
  simp [Money.val_moneySum, Money.val_add]

/-! ## String helpers mirroring the Python string operations used -/

/-- Python substring test: the needle occurs contiguously in the haystack. -/
def listIsPrefix : List Char → List Char → Bool
  | [], _ => true
  | _ :: _, [] => false
  | a :: as, b :: bs => a == b && listIsPrefix as bs

def strContainsAux (needle : List Char) : List Char → Bool
  | [] => needle.isEmpty
  | c :: rest => listIsPrefix needle (c :: rest) || strContainsAux needle rest

/-- Python `needle in hay` on strings. -/
def strContains (hay needle : String) : Bool :=
  strContainsAux needle.toList hay.toList

/- The positional `String` functions of core Lean (`toLower`, `trim`,
`replace`, `splitOn`, `take`) are implemented with byte-position loops
that the kernel cannot evaluate, so the Python string methods are
modelled by the character-list versions below. -/

/-- Python `s.lower()` (over the ASCII fragment the program feeds it). -/
def strLower (s : String) : String :=
  ⟨s.data.map Char.toLower⟩

/-- Python `s.strip()`: drop whitespace from both ends. -/
def strTrim (s : String) : String :=
  ⟨((s.data.dropWhile Char.isWhitespace).reverse.dropWhile Char.isWhitespace).reverse⟩

/-- Python `s[:n]` on characters. -/
def strTake (s : String) (n : ℕ) : String :=
  ⟨s.data.take n⟩

def replaceAux (pat rep : List Char) : ℕ → List Char → List Char
  | _, [] => []
  | 0, cs => cs
  | fuel + 1, c :: cs =>
    if listIsPrefix pat (c :: cs) then
      rep ++ replaceAux pat rep fuel ((c :: cs).drop pat.length)
    else
      c :: replaceAux pat rep fuel cs

/-- Python `s.replace(pat, rep)` for a non-empty pattern: replace
non-overlapping occurrences left to right. -/
def strReplace (s pat rep : String) : String :=
  if pat.data.isEmpty then s else ⟨replaceAux pat.data rep.data s.data.length s.data⟩

def splitOnAux (sep : List Char) : ℕ → List Char → List Char → List String
  | 0, acc, cs => [(acc.reverse ++ cs).asString]
  | _ + 1, acc, [] => [acc.reverse.asString]
  | fuel + 1, acc, c :: cs =>
    if listIsPrefix sep (c :: cs) then
      acc.reverse.asString :: splitOnAux sep fuel [] ((c :: cs).drop sep.length)
    else
      splitOnAux sep fuel (c :: acc) cs

/-- Python `s.split(sep)` for a non-empty separator. -/
def strSplitOn (s sep : String) : List String :=
  if sep.data.isEmpty then [s] else splitOnAux sep.data (s.data.length + 1) [] s.data

/-- Fold a list of decimal digit characters into a natural number. -/
def digitsToNat (ds : List Char) : ℕ :=
  ds.foldl (fun n c => n * 10 + (c.toNat - '0'.toNat)) 0

/-- Python `float(s)` on the decimal fragment the program feeds it:
optional sign, digits, an optional decimal point.  Returns `none` where
`float` raises `ValueError`. -/
def parseFloat? (s : String) : Option Money :=
  let cs := (strTrim s).toList
  let signAndRest : Bool × List Char :=
    match cs with
    | '-' :: rest => (true, rest)
    | '+' :: rest => (false, rest)
    | _ => (false, cs)
  let neg := signAndRest.1
  let afterSign := signAndRest.2
  let intSpan := afterSign.span Char.isDigit
  let intPart := intSpan.1
  let afterInt := intSpan.2
  let fracAndRest : List Char × List Char :=
    match afterInt with
    | '.' :: rest => rest.span Char.isDigit
    | _ => ([], afterInt)
  let fracPart := fracAndRest.1
  let rest := fracAndRest.2
  if rest.isEmpty && !(intPart.isEmpty && fracPart.isEmpty) then
    let mag : Money :=
      ⟨mkRat (digitsToNat intPart * 10 ^ fracPart.length + digitsToNat fracPart)
        (10 ^ fracPart.length)⟩
    some (if neg then -mag else mag)
  else
    none

/-- The amount clean-up used throughout `data_manager.py`:
`amount.replace('₹', '').replace(',', '')`. -/
def cleanMoneyStr (s : String) : String :=
  strReplace (strReplace s "₹" "") "," ""



/-! ## Dynamic values

Item `amount` and `quantity` fields may hold either a string (e.g.
`"₹10,000"`) or a number in the Python source. -/

inductive PyVal where
  | str (s : String)
  | num (q : Money)
deriving DecidableEq, Repr

/-- Conversion applied to an item amount in `create_invoice`
(lines 118-120): a string is cleaned and passed to `float`, whose
failure propagates as an exception (`none`). -/
def PyVal.toAmount? : PyVal → Option Money
  | .num q => some q
  | .str s => parseFloat? (cleanMoneyStr s)

/-- Conversion applied to an item quantity (lines 123-127): `float` on the
raw string, with `ValueError` caught locally and replaced by `1`. -/
def PyVal.toQuantity : PyVal → Money
  | .num q => q
  | .str s => (parseFloat? s).getD 1

/-- Python truthiness of an optional string (`if x:`): `None` and the
empty string are falsy. -/
def truthy : Option String → Bool
  | none => false
  | some s => !s.isEmpty

/-- Python `a or b` on optional strings (used for the ledger reason
`category or notes` in `record_transaction`). -/
def pyOr (a b : Option String) : Option String :=
  if truthy a then a else b

/-! ## Data model of `data_manager.py`

Fields that no claim observes (timestamps, the stored date strings, the
generated PDF paths) are omitted; the invoice id and the wall clock are
threaded in as explicit arguments where the source calls
`datetime.now()`. -/

/-- An input item dictionary as accepted by `create_invoice`.  `none`
models an absent dictionary key. -/
structure ItemInput where
  name : Option String := none
  amount : Option PyVal := none
  gst_rate : Option Money := none
  hsn_code : Option String := none
  quantity : Option PyVal := none
  unit : Option String := none
  discount : Option Money := none
deriving DecidableEq, Repr

/-- A processed invoice line item (`processed_items` entries,
`create_invoice` lines 167-183). -/
structure ProcessedItem where
  name : String
  hsn_code : String
  quantity : Money
  unit : String
  rate_per_unit : Money
  base_amount : Money
  discount : Money
  discount_amount : Money
  taxable_value : Money
  gst_rate : Money
  igst_amount : Money
  cgst_amount : Money
  sgst_amount : Money
  gst_amount : Money
  total_amount : Money
deriving DecidableEq, Repr

/-- The `additional_details` dictionary of `create_invoice`: only the keys
the engine reads (`seller_state`, `reason`, `amount`) are modelled; the
other keys stored by callers (`invoice_date`, `due_date`,
`invoice_notes`) are presentation-only. -/
structure AdditionalDetails where
  seller_state : Option String := none
  reason : Option String := none
  amount : Option PyVal := none
deriving DecidableEq, Repr

/-- An invoice record as built by `create_invoice` (lines 204-222),
without the date fields. -/
structure Invoice where
  id : String
  recipient : Option String
  recipient_gst : Option String
  sender_gst : Option String
  place_of_supply : String
  reverse_charge : Bool
  base_amount : Money
  gst_amount : Money
  cgst_amount : Money
  sgst_amount : Money
  igst_amount : Money
  total_amount : Money
  items : List ProcessedItem
  status : String
deriving DecidableEq, Repr

/-- A ledger entry (`update_ledger` lines 334-339, date omitted).  The
reason is optional because `record_transaction` passes
`category or notes`, which can be `None`. -/
structure LedgerEntry where
  type : String
  amount : Money
  reason : Option String
deriving DecidableEq, Repr

/-- A per-party ledger: ordered entries plus the stored running balance. -/
structure Ledger where
  entries : List LedgerEntry
  balance : Money
deriving DecidableEq, Repr

/-- The ledgers file: a dictionary keyed by party name.  The key is an
optional string because `create_invoice` forwards its `recipient`
argument unchecked (Python would key the dict by `None`). -/
abbrev Ledgers := List (Option String × Ledger)

/-- A transaction record (`record_transaction` lines 268-285, date
omitted).  The `name` key is stored only when truthy. -/
structure Transaction where
  id : String
  type : String
  amount : Money
  name : Option String
  category : String
  notes : Option String
deriving DecidableEq, Repr

/-- The persisted JSON stores (`invoices.json`, `transactions.json`,
`ledgers.json`), modelled in-memory; `save_json_data` is modelled as
always succeeding. -/
structure DataState where
  invoices : List Invoice
  transactions : List Transaction
  ledgers : Ledgers
deriving DecidableEq, Repr

/-- The empty data state (fresh files). -/
def dataState0 : DataState := { invoices := [], transactions := [], ledgers := [] }

/-! ## `update_ledger`, `get_ledger` and `record_transaction` -/

/-- Function `update_ledger(name, entry_type, amount, reason, date)`
(data_manager.py lines 310-349): create the ledger lazily, adjust the
balance by entry type (`"invoice"` adds, `"payment"` subtracts, any other
type leaves it unchanged), and append the entry. -/
def update_ledger (ledgers : Ledgers) (name : Option String) (entry_type : String)
    (amount : Money) (reason : Option String) : Ledgers :=
  let cur := (dget ledgers name).getD { entries := [], balance := 0 }
  let new_balance :=
    if entry_type = "invoice" then cur.balance + amount
    else if entry_type = "payment" then cur.balance - amount
    else cur.balance
  dset ledgers name
    { entries := cur.entries ++ [{ type := entry_type, amount := amount, reason := reason }],
      balance := new_balance }

/-- Function `get_ledger(name)` (lines 351-360). -/
def get_ledger (ledgers : Ledgers) (name : Option String) : Option Ledger :=
  dget ledgers name

/-- Function `record_transaction(transaction_type, name, amount, category, date, notes)`
(lines 242-308).  The date argument and its parsing are omitted: no claim
concerns dates, and every claim is exercised at calls with an absent or
well-formed date.  Returns the Python boolean result together with the
updated stores; a failing `float` conversion of the amount raises and is
caught, returning `False` with nothing recorded. -/
def record_transaction (st : DataState) (genId : String) (transaction_type : String)
    (name : Option String) (amount : PyVal) (category : Option String)
    (notes : Option String) : Bool × DataState :=
  match amount.toAmount? with
  | none => (false, st)
  | some amt =>
    let txn : Transaction :=
      { id := genId, type := transaction_type, amount := amt,
        name := if truthy name then name else none,
        category := match category with
          | some c => if c.isEmpty then "Uncategorized" else c
          | none => "Uncategorized",
        notes := notes }
    let st := { st with transactions := st.transactions ++ [txn] }
    if truthy name then
      if transaction_type = "income" then
        (true, { st with ledgers := update_ledger st.ledgers name "payment" amt (pyOr category notes) })
      else if transaction_type = "expense" then
        (true, { st with ledgers := update_ledger st.ledgers name "invoice" (-amt) (pyOr category notes) })
      else (true, st)
    else (true, st)

/-! ## `create_invoice` -/

/-- Item-name sanitisation (`create_invoice` lines 104-107). -/
def sanitizeItemName (n : String) : String :=
  if strContains (strLower n) "invoice to" || strContains (strLower n) "create invoice" then
    "Professional Services"
  else n

/-- The seller state read out of `additional_details` (lines 141-143 and
188-190): absent details or an absent key default to the empty string. -/
def sellerStateOf (additional_details : Option AdditionalDetails) : String :=
  match additional_details with
  | some d => d.seller_state.getD ""
  | none => ""

/-- Interstate classification (line 144): the raw Python comparison
`place_of_supply != seller_state`, where an absent `place_of_supply`
(`None`) compares unequal to every string. -/
def isInterstate (place_of_supply : Option String)
    (additional_details : Option AdditionalDetails) : Bool :=
  place_of_supply != some (sellerStateOf additional_details)

/-- Processing of one input item (`create_invoice` lines 102-183):
defaults, amount/quantity conversion, discount, taxable value, GST and
its interstate/intrastate split.  `none` models the `float` conversion of
the amount raising (which aborts `create_invoice`). -/
def processItem (default_gst_rate : Money) (place_of_supply : Option String)
    (additional_details : Option AdditionalDetails) (item : ItemInput) :
    Option ProcessedItem :=
  match (item.amount.getD (.num 0)).toAmount? with
  | none => none
  | some item_amount =>
    let item_name := sanitizeItemName (item.name.getD "Item")
    let item_gst_rate := item.gst_rate.getD default_gst_rate
    let hsn_code := item.hsn_code.getD "9983"
    let quantity := (item.quantity.getD (.num 1)).toQuantity
    let unit := item.unit.getD "Unit"
    let rate_per_unit := if quantity > 0 then item_amount / quantity else item_amount
    let discount := item.discount.getD 0
    let discount_amount := if discount > 0 then item_amount * discount / 100 else 0
    let taxable_value := item_amount - discount_amount
    let inter := isInterstate place_of_supply additional_details
    let item_gst_amount := taxable_value * (item_gst_rate / 100)
    let igst_amount := if inter then item_gst_amount else 0
    let cgst_amount := if inter then 0 else item_gst_amount / 2
    let sgst_amount := if inter then 0 else item_gst_amount / 2
    some
      { name := item_name, hsn_code := hsn_code, quantity := quantity, unit := unit,
        rate_per_unit := rate_per_unit, base_amount := item_amount,
        discount := discount, discount_amount := discount_amount,
        taxable_value := taxable_value, gst_rate := item_gst_rate,
        igst_amount := igst_amount, cgst_amount := cgst_amount,
        sgst_amount := sgst_amount, gst_amount := item_gst_amount,
        total_amount := taxable_value + item_gst_amount }

/-- The item loop of `create_invoice`: process items in order, aborting
on the first conversion failure. -/
def processItems (default_gst_rate : Money) (place_of_supply : Option String)
    (additional_details : Option AdditionalDetails) :
    List ItemInput → Option (List ProcessedItem)
  | [] => some []
  | i :: rest =>
    match processItem default_gst_rate place_of_supply additional_details i with
    | none => none
    | some pi =>
      match processItems default_gst_rate place_of_supply additional_details rest with
      | none => none
      | some rest' => some (pi :: rest')

/-- Python `place_of_supply or "Not Specified"` (line 209): with `or`, both
`None` and the empty string fall back. -/
def orNotSpecified (p : Option String) : String :=
  if truthy p then p.getD "" else "Not Specified"

/-- The default item synthesised when the item list is falsy
(`create_invoice` lines 77-94): name from `additional_details.reason`
(default `"Services"`), amount from `additional_details.amount` (default
`0`, string amounts cleaned and converted, failure aborting), GST rate
from the `gst_rate` argument. -/
def defaultItem (gst_rate : Money) (additional_details : Option AdditionalDetails) :
    Option ItemInput :=
  let reason := (additional_details.bind (·.reason)).getD "Services"
  let amount := (additional_details.bind (·.amount)).getD (.num 0)
  match amount.toAmount? with
  | none => none
  | some q => some { name := some reason, amount := some (.num q), gst_rate := some gst_rate }

/-- The item list actually processed (`create_invoice` lines 77-94): a
falsy `items` argument is replaced by the single synthesised default
item. -/
def resolvedItems (gst_rate : Money) (additional_details : Option AdditionalDetails)
    (items : List ItemInput) : Option (List ItemInput) :=
  if items.isEmpty then (defaultItem gst_rate additional_details).map (fun i => [i])
  else some items

/-- The ledger reason derived from the processed items (line 234). -/
def invoiceLedgerReason : List ProcessedItem → String
  | [p] => p.name
  | _ => "Multiple items"

/-- Function `create_invoice(recipient, items, recipient_gst, sender_gst,
custom_invoice_number, gst_rate, place_of_supply, reverse_charge,
additional_details)` (data_manager.py lines 49-240).  `genId` stands for
the time-derived `generate_id("invoice")`; the whole body runs under a
`try` whose only modelled exception source is `float` conversion.  On
success the invoice is appended to the store and one ledger entry of type
`"invoice"` for the recipient is posted with the invoice total. -/
def create_invoice (st : DataState) (genId : String) (recipient : Option String)
    (items : List ItemInput) (recipient_gst sender_gst : Option String)
    (custom_invoice_number : Option String) (gst_rate : Money)
    (place_of_supply : Option String) (reverse_charge : Bool)
    (additional_details : Option AdditionalDetails) : Option Invoice × DataState :=
  let invoice_id := if truthy custom_invoice_number then custom_invoice_number.getD "" else genId
  match resolvedItems gst_rate additional_details items with
  | none => (none, st)
  | some items =>
    match processItems gst_rate place_of_supply additional_details items with
    | none => (none, st)
    | some processed =>
      let base_total := moneySum (processed.map (·.taxable_value))
      let gst_total := moneySum (processed.map (·.gst_amount))
      let total_amount := base_total + gst_total
      let inter := isInterstate place_of_supply additional_details
      let total_igst := if inter then gst_total else 0
      let total_cgst := if inter then 0 else gst_total / 2
      let total_sgst := if inter then 0 else gst_total / 2
      let inv : Invoice :=
        { id := invoice_id, recipient := recipient, recipient_gst := recipient_gst,
          sender_gst := sender_gst, place_of_supply := orNotSpecified place_of_supply,
          reverse_charge := reverse_charge, base_amount := base_total,
          gst_amount := gst_total, cgst_amount := total_cgst, sgst_amount := total_sgst,
          igst_amount := total_igst, total_amount := total_amount,
          items := processed, status := "pending" }
      (some inv,
        { st with
            invoices := st.invoices ++ [inv],
            ledgers := update_ledger st.ledgers recipient "invoice" total_amount
              (some (invoiceLedgerReason processed)) })

/-! ## Session manager (`session_manager.py`)

Wall-clock time is a natural number of seconds (`now`), passed to every
operation that reads `datetime.now()`.  A Python time difference
`(now - last_updated).total_seconds() > SESSION_TIMEOUT` is the integer
comparison `last_updated + SESSION_TIMEOUT < now` (a negative difference,
possible only with a non-monotone clock, is correctly not expired in both
forms). -/

/- The conversation-flow state constants of `class SessionState`. -/
namespace SessionState

def IDLE : String := "idle"

def INVOICE_CREATION : String := "invoice"

def EXPENSE_RECORDING : String := "expense"

def PAYMENT_RECORDING : String := "payment"

def LEDGER_MANAGEMENT : String := "ledger"

def INVENTORY_MANAGEMENT : String := "inventory"

end SessionState

/-- The 30-minute session timeout, in seconds. -/
def SESSION_TIMEOUT : ℕ := 1800

/-- The per-session field bag (`session["data"]`), with one optional slot
per field name the conversation flows store.  The empty bag (all `none`)
models the empty dict. -/
structure SessData where
  current_step : Option String := none
  flow_path : Option (List String) := none
  recipient : Option String := none
  recipient_gst : Option String := none
  sender_gst : Option String := none
  place_of_supply : Option String := none
  items : Option (List ItemInput) := none
  amount : Option String := none
  date : Option String := none
  category : Option String := none
  vendor : Option String := none
  notes : Option String := none
  from_party : Option String := none
deriving DecidableEq, Repr

/-- A session record (`SESSIONS[sid]`), timestamps in seconds. -/
structure Session where
  state : String
  data : SessData
  created_at : ℕ
  last_updated : ℕ
deriving DecidableEq, Repr

/-- The global in-memory session store `SESSIONS`. -/
abbrev Sessions := List (String × Session)

/-- The session id `create_session` derives from the current time
(the source uses milliseconds since the epoch). -/
def mkSessionId (now : ℕ) : String := "session_" ++ toString now

/-- Function `create_session()` (lines 30-39). -/
def create_session (sessions : Sessions) (now : ℕ) : String × Sessions :=
  let sid := mkSessionId now
  (sid, dset sessions sid { state := SessionState.IDLE, data := {}, created_at := now, last_updated := now })

/-- Function `get_session(session_id)` (lines 41-61): falsy or unknown ids are
not found; a session idle for more than `SESSION_TIMEOUT` seconds is
deleted and reported not found; otherwise `last_updated` is refreshed as
a side effect.  Returns the result together with the updated store. -/
def get_session (sessions : Sessions) (now : ℕ) (session_id : Option String) :
    Option Session × Sessions :=
  match session_id with
  | none => (none, sessions)
  | some sid =>
    if sid.isEmpty then (none, sessions)
    else
      match dget sessions sid with
      | none => (none, sessions)
      | some s =>
        if s.last_updated + SESSION_TIMEOUT < now then
          (none, ddel sessions sid)
        else
          let s' := { s with last_updated := now }
          (some s', dset sessions sid s')

/-- Function `update_session(session_id, state, data)` (lines 63-80).  The `data`
argument is the dictionary merged into the field bag; each Lean call site
passes the merge of the literal keys of the corresponding Python call as
a record update, so `none` models passing no `data`.  A falsy `state`
argument (`None`, and the unused empty string) leaves the state; the
timestamp is refreshed unconditionally.  No expiry check is performed. -/
def update_session (sessions : Sessions) (now : ℕ) (session_id : Option String)
    (state : Option String) (patch : Option (SessData → SessData)) :
    Bool × Sessions :=
  match session_id with
  | none => (false, sessions)
  | some sid =>
    if sid.isEmpty then (false, sessions)
    else
      match dget sessions sid with
      | none => (false, sessions)
      | some s =>
        let s := match state with
          | some st => if st.isEmpty then s else { s with state := st }
          | none => s
        let s := match patch with
          | some f => { s with data := f s.data }
          | none => s
        (true, dset sessions sid { s with last_updated := now })

/-- Function `get_session_data(session_id)` with no key (lines 86-95): the whole
field bag via `get_session` (hence with its refresh/expiry effects). -/
def get_session_data (sessions : Sessions) (now : ℕ) (session_id : Option String) :
    Option SessData × Sessions :=
  let r := get_session sessions now session_id
  (r.1.map (·.data), r.2)

/-- Function `clear_session_data(session_id)` (lines 97-107): empty the field bag,
keep the session. -/
def clear_session_data (sessions : Sessions) (now : ℕ) (session_id : Option String) :
    Bool × Sessions :=
  match session_id with
  | none => (false, sessions)
  | some sid =>
    if sid.isEmpty then (false, sessions)
    else
      match dget sessions sid with
      | none => (false, sessions)
      | some s =>
        (true, dset sessions sid { s with data := {}, last_updated := now })

/-! ## Text scanners of `conversation_processor.py`

The regular expressions of the source are translated into character-level
scanners with the same match semantics on the inputs the program feeds
them.  The Python character classes are modelled over the fragment the
program exercises: ASCII letters, digits, underscore and whitespace. -/

/-- A character of the Python class `[\w\s]`. -/
def isWordSpaceChar (c : Char) : Bool :=
  c.isAlphanum || c == '_' || c.isWhitespace

/-- A character of the class `[\d,]`. -/
def isDigitComma (c : Char) : Bool :=
  c.isDigit || c == ','

/-- The optional fractional part `(?:\.\d+)?`: a dot is consumed only
when at least one digit follows. -/
def matchFrac : List Char → List Char × List Char
  | '.' :: rest =>
    let sp := rest.span Char.isDigit
    if sp.1.isEmpty then ([], '.' :: rest) else ('.' :: sp.1, sp.2)
  | cs => ([], cs)

/-- Match the amount pattern `₹\s*[\d,]+(?:\.\d+)?` anchored at the head
of the character list, returning the matched text and the remainder. -/
def matchAmountAt : List Char → Option (List Char × List Char)
  | '₹' :: rest =>
    let sp := rest.span Char.isWhitespace
    let dg := sp.2.span isDigitComma
    if dg.1.isEmpty then none
    else
      let fr := matchFrac dg.2
      some ('₹' :: (sp.1 ++ dg.1 ++ fr.1), fr.2)
  | _ => none

def searchAmountAux : List Char → Option (List Char)
  | [] => none
  | c :: rest =>
    match matchAmountAt (c :: rest) with
    | some m => some m.1
    | none => searchAmountAux rest

/-- Python `re.search(r'(₹\s*[\d,]+(?:\.\d+)?)', s)`: the leftmost
amount token, if any. -/
def searchAmount (s : String) : Option String :=
  (searchAmountAux s.toList).map List.asString

/-- One attempt of the item pattern `([\w\s]+)\s*(₹\s*[\d,]+(?:\.\d+)?)`
anchored at the head: the greedy `[\w\s]+` run must be followed directly
by the amount (backtracking inside the run can never reach a `₹`, since
`\s*` only crosses whitespace that the run already consumed). -/
def tryItemMatchAt (cs : List Char) : Option ((String × String) × List Char) :=
  let sp := cs.span isWordSpaceChar
  if sp.1.isEmpty then none
  else
    match matchAmountAt sp.2 with
    | some m => some ((sp.1.asString, m.1.asString), m.2)
    | none => none

def findItemAmountsAux : ℕ → List Char → List (String × String)
  | 0, _ => []
  | _, [] => []
  | fuel + 1, c :: rest =>
    match tryItemMatchAt (c :: rest) with
    | some (pair, rem) => pair :: findItemAmountsAux fuel rem
    | none => findItemAmountsAux fuel rest

/-- Python `re.findall(r'([\w\s]+)\s*(₹\s*[\d,]+(?:\.\d+)?)', s)`
(`process_invoice_step` line 371): the non-overlapping left-to-right
item/amount pairs. -/
def findItemAmounts (s : String) : List (String × String) :=
  findItemAmountsAux s.length s.toList

/-- A character of the class `[0-9A-Z]`. -/
def isDigitOrUpper (c : Char) : Bool :=
  c.isDigit || c.isUpper

/-- The GST-number pattern
`^[0-9]{2}[A-Z]{5}[0-9]{4}[A-Z]{1}[0-9A-Z]{1}[Z]{1}[0-9A-Z]{1}$`
(`re.match` with both anchors, lines 313 and 344). -/
def gstValid (s : String) : Bool :=
  match s.toList with
  | [d1, d2, l1, l2, l3, l4, l5, n1, n2, n3, n4, e1, e2, z, c] =>
    d1.isDigit && d2.isDigit &&
    l1.isUpper && l2.isUpper && l3.isUpper && l4.isUpper && l5.isUpper &&
    n1.isDigit && n2.isDigit && n3.isDigit && n4.isDigit &&
    e1.isUpper && isDigitOrUpper e2 && z == 'Z' && isDigitOrUpper c
  | _ => false

/-- The description pattern `^\s*for\s+(.+)$` (ignore-case, line 388),
applied to an already stripped string: the literal `for`, at least one
whitespace character, then a non-empty remainder (returned stripped, as
the caller immediately strips it). -/
def matchForDescription (s : String) : Option String :=
  match s.toList with
  | f :: o :: r :: rest =>
    if (f.toLower == 'f' && o.toLower == 'o' && r.toLower == 'r') then
      let sp := rest.span Char.isWhitespace
      if sp.1.isEmpty || sp.2.isEmpty then none
      else some (strTrim sp.2.asString)
    else none
  | _ => none

/-- The tax-advisory keyword list of `is_tax_query` (tax_advisor.py
lines 560-569). -/
def taxKeywords : List String :=
  ["gst", "tax", "tds", "filing", "return", "hsn", "sac", "igst", "cgst", "sgst",
   "input credit", "itc", "invoice requirement", "composition scheme", "deadline",
   "due date", "registration", "threshold", "reverse charge", "e-invoice", "eway bill"]

/-- Function `is_tax_query(query)`. -/
def is_tax_query (query : String) : Bool :=
  taxKeywords.any (fun k => strContains (strLower query) k)

/-- After a currency token, the pattern requires optional whitespace and
then at least one character of `[\d,]`. -/
def spaceThenDigitComma (cs : List Char) : Bool :=
  match (cs.span Char.isWhitespace).2 with
  | c :: _ => isDigitComma c
  | [] => false

/-- The currency alternatives of `(?:₹|rs\.?|inr|rupees?)\s*[\d,]+`
anchored at the head of an already lowercased character list. -/
def currencyMatchAt : List Char → Bool
  | '₹' :: rest => spaceThenDigitComma rest
  | 'r' :: 'u' :: 'p' :: 'e' :: 'e' :: rest =>
    (match rest with
     | 's' :: r => spaceThenDigitComma r || spaceThenDigitComma ('s' :: r)
     | _ => spaceThenDigitComma rest)
  | 'r' :: 's' :: rest =>
    (match rest with
     | '.' :: r => spaceThenDigitComma r
     | _ => spaceThenDigitComma rest)
  | 'i' :: 'n' :: 'r' :: rest => spaceThenDigitComma rest
  | _ => false

def searchCurrencyAux : List Char → Bool
  | [] => false
  | c :: rest => currencyMatchAt (c :: rest) || searchCurrencyAux rest

/-- Python `re.search(r'(?:₹|rs\.?|inr|rupees?)\s*[\d,]+', s)` as a
presence test (lines 227 and 233 of the idle router). -/
def searchCurrencyAmount (s : String) : Bool :=
  searchCurrencyAux s.toList

/-- Python `re.search(r'₹\s*[\d,]+', s)` as a presence test (line 221). -/
def hasRupeeAmount (s : String) : Bool :=
  (searchAmountAux s.toList).isSome

/-! ## The conversation processor (`conversation_processor.py`)

Responses are long English/HTML strings in the source; they carry no
state, so each source return site is modelled as a tag (plus the payload
the claims mention).  The expense and payment flow step handlers and the
one-line direct commands mutate no state that any claim observes through
the paths any claim exercises; where their internal behaviour is not
modelled this is marked by a dedicated tag and documented at the
definition. -/

inductive Resp where
  | cancelAck
  | errorReset
  | unknownStateReset
  | invoiceFlowStarted
  | expenseFlowStarted
  | paymentFlowStarted
  | oneShot (kind : String)
  | directUnmodeled (kind : String)
  | freeTextUnmodeled
  | stepUnmodeled (flow : String)
  | ledgerStepPlaceholder
  | invLostTrack
  | invCancelled
  | invAskRecipientGst (recipient : String)
  | invGstInvalidRecipient
  | invAskSenderGst
  | invGstInvalidSender
  | invAskPlaceOfSupply
  | invAskItems
  | invItemsNotUnderstood
  | invConfirmSummary
  | invCreated (recipient : Option String) (id : String)
  | invCreateError
  | invConfirmReprompt
  | invEditRestart
  | invUnknownStep
deriving DecidableEq, Repr

/-- The mutable state visible to the conversation processor: the session
store and the persisted data stores. -/
structure World where
  sessions : Sessions
  data : DataState
deriving DecidableEq, Repr

/-- The empty world: no sessions, fresh data files. -/
def world0 : World := { sessions := [], data := dataState0 }

/-- The `(response, session_id, session_state)` triple returned by the
processor, together with the updated world. -/
structure MsgResult where
  resp : Resp
  session_id : Option String
  state : String
  world : World
deriving DecidableEq, Repr

/-- Function `generate_id(prefix)` (data_manager.py line 362), with the timestamp
supplied as a number. -/
def generate_id (pfx : String) (now : ℕ) : String :=
  pfx ++ "_" ++ toString now

/-- The GST state-code table of the confirm step
(`process_invoice_step` lines 559-571). -/
def stateCodeTable : List (String × String) :=
  [("01", "Jammu and Kashmir"), ("02", "Himachal Pradesh"), ("03", "Punjab"),
   ("04", "Chandigarh"), ("05", "Uttarakhand"), ("06", "Haryana"),
   ("07", "Delhi"), ("08", "Rajasthan"), ("09", "Uttar Pradesh"),
   ("10", "Bihar"), ("11", "Sikkim"), ("12", "Arunachal Pradesh"),
   ("13", "Nagaland"), ("14", "Manipur"), ("15", "Mizoram"),
   ("16", "Tripura"), ("17", "Meghalaya"), ("18", "Assam"),
   ("19", "West Bengal"), ("20", "Jharkhand"), ("21", "Odisha"),
   ("22", "Chhattisgarh"), ("23", "Madhya Pradesh"), ("24", "Gujarat"),
   ("27", "Maharashtra"), ("29", "Karnataka"), ("30", "Goa"),
   ("32", "Kerala"), ("33", "Tamil Nadu"), ("34", "Puducherry"),
   ("36", "Telangana"), ("37", "Andhra Pradesh")]

/-- The `additional_details` dictionary built by the confirm step
(lines 547-572): seller state defaults to `"Delhi"` and is overridden by
the state code of a collected sender GST number when one is present. -/
def confirmAdditionalDetails (d : SessData) : AdditionalDetails :=
  let seller_state :=
    if truthy d.sender_gst && (d.sender_gst.getD "").length ≥ 2 then
      (dget stateCodeTable (strTake (d.sender_gst.getD "") 2)).getD "Delhi"
    else "Delhi"
  { seller_state := some seller_state }

/-- The item dictionary built by the items step for each matched
item/amount pair (lines 405-412 and 436-443); the keyword-based HSN
detection assigns `"9983"` in its default and in every branch. -/
def flowItem (item_name : String) (amount : String) : ItemInput :=
  { name := some item_name, amount := some (.str amount), gst_rate := some 18,
    hsn_code := some "9983", quantity := some (.num 1), unit := some "Service" }

/-- The single-amount fallback of the items step (lines 373-412): an
amount without the pair pattern; the item name is text before the
amount, else a `for …` description after it, else
`"Professional Services"`. -/
def singleAmountItemName (message : String) (amount : String) : String :=
  let text_parts := strSplitOn message amount
  let part0 := strTrim (text_parts.headD "")
  if !part0.isEmpty then part0
  else
    match text_parts with
    | _ :: p1 :: _ =>
      if !(strTrim p1).isEmpty then
        match matchForDescription (strTrim p1) with
        | some d => d
        | none => "Professional Services"
      else "Professional Services"
    | _ => "Professional Services"

/-- The cancel tokens recognised inside the flow step handlers
(line 283; note: without `"end"`). -/
def flowCancelTokens : List String := ["cancel", "exit", "quit", "stop"]

/-- The global cancel tokens of `process_message` (line 70). -/
def cancelTokens : List String := ["cancel", "exit", "quit", "stop", "end"]

/-- The lost-track branch of `process_invoice_step` (lines 269-276),
taken when the session data is falsy: reset the state to idle (data is
not cleared here) and apologise. -/
def invoiceLostTrack (w : World) (now : ℕ) (session_id : Option String) : MsgResult :=
  let u := update_session w.sessions now session_id (some SessionState.IDLE) none
  { resp := .invLostTrack, session_id := session_id, state := SessionState.IDLE,
    world := { w with sessions := u.2 } }

/-- The shared tail of the items step (lines 445-484): store the parsed
items, jump directly to the confirm step, and build the confirmation
message (which re-reads the session data). -/
def invoiceItemsFinish (w : World) (now : ℕ) (session_id : Option String)
    (items : List ItemInput) : MsgResult :=
  let u := update_session w.sessions now session_id none
    (some fun dd => { dd with items := some items, current_step := some "confirm" })
  let g := get_session_data u.2 now session_id
  { resp := .invConfirmSummary, session_id := session_id,
    state := SessionState.INVOICE_CREATION, world := { w with sessions := g.2 } }

/-- Function `process_invoice_step(message, session_id)`
(conversation_processor.py lines 266-642).  The duplicate
`current_step == "sender_gst"` block at lines 488-537 is dead code (the
first such branch at line 339 always matches first) and is therefore not
modelled. -/
def process_invoice_step (w : World) (now : ℕ) (message : String)
    (session_id : Option String) : MsgResult :=
  let g0 := get_session_data w.sessions now session_id
  let w := { w with sessions := g0.2 }
  match g0.1 with
  | none => invoiceLostTrack w now session_id
  | some d =>
    if d = ({} : SessData) then invoiceLostTrack w now session_id
    else
      let current_step := d.current_step.getD "recipient"
      if flowCancelTokens.contains (strLower message) then
        let u := update_session w.sessions now session_id (some SessionState.IDLE) none
        let c := clear_session_data u.2 now session_id
        { resp := .invCancelled, session_id := session_id, state := SessionState.IDLE,
          world := { w with sessions := c.2 } }
      else if current_step = "recipient" then
        let u := update_session w.sessions now session_id none
          (some fun dd => { dd with recipient := some (strTrim message),
                                    current_step := some "recipient_gst" })
        { resp := .invAskRecipientGst (strTrim message), session_id := session_id,
          state := SessionState.INVOICE_CREATION, world := { w with sessions := u.2 } }
      else if current_step = "recipient_gst" then
        if (strLower message) = "skip" then
          let u := update_session w.sessions now session_id none
            (some fun dd => { dd with current_step := some "sender_gst" })
          { resp := .invAskSenderGst, session_id := session_id,
            state := SessionState.INVOICE_CREATION, world := { w with sessions := u.2 } }
        else if !gstValid (strTrim message) then
          { resp := .invGstInvalidRecipient, session_id := session_id,
            state := SessionState.INVOICE_CREATION, world := w }
        else
          let u := update_session w.sessions now session_id none
            (some fun dd => { dd with recipient_gst := some (strTrim message),
                                      current_step := some "sender_gst" })
          { resp := .invAskSenderGst, session_id := session_id,
            state := SessionState.INVOICE_CREATION, world := { w with sessions := u.2 } }
      else if current_step = "sender_gst" then
        if (strLower message) = "skip" then
          let u := update_session w.sessions now session_id none
            (some fun dd => { dd with current_step := some "place_of_supply" })
          { resp := .invAskPlaceOfSupply, session_id := session_id,
            state := SessionState.INVOICE_CREATION, world := { w with sessions := u.2 } }
        else if !gstValid (strTrim message) then
          { resp := .invGstInvalidSender, session_id := session_id,
            state := SessionState.INVOICE_CREATION, world := w }
        else
          let u := update_session w.sessions now session_id none
            (some fun dd => { dd with sender_gst := some (strTrim message),
                                      current_step := some "place_of_supply" })
          { resp := .invAskPlaceOfSupply, session_id := session_id,
            state := SessionState.INVOICE_CREATION, world := { w with sessions := u.2 } }
      else if current_step = "place_of_supply" then
        let u := update_session w.sessions now session_id none
          (some fun dd => { dd with place_of_supply := some (strTrim message),
                                    current_step := some "items" })
        { resp := .invAskItems, session_id := session_id,
          state := SessionState.INVOICE_CREATION, world := { w with sessions := u.2 } }
      else if current_step = "items" then
        let amounts := findItemAmounts message
        if amounts.isEmpty then
          match searchAmount message with
          | none =>
            { resp := .invItemsNotUnderstood, session_id := session_id,
              state := SessionState.INVOICE_CREATION, world := w }
          | some amt =>
            invoiceItemsFinish w now session_id
              [flowItem (singleAmountItemName message amt) amt]
        else
          invoiceItemsFinish w now session_id
            (amounts.map (fun p => flowItem (strTrim p.1) p.2))
      else if current_step = "confirm" then
        if (strLower message) = "confirm" then
          let g2 := get_session_data w.sessions now session_id
          let w := { w with sessions := g2.2 }
          let d := g2.1.getD {}
          let r := create_invoice w.data (generate_id "invoice" now) d.recipient
            (d.items.getD []) d.recipient_gst d.sender_gst none 18 d.place_of_supply
            false (some (confirmAdditionalDetails d))
          let w := { w with data := r.2 }
          match r.1 with
          | some inv =>
            let u := update_session w.sessions now session_id (some SessionState.IDLE) none
            let c := clear_session_data u.2 now session_id
            { resp := .invCreated d.recipient inv.id, session_id := session_id,
              state := SessionState.IDLE, world := { w with sessions := c.2 } }
          | none =>
            { resp := .invCreateError, session_id := session_id,
              state := SessionState.IDLE, world := w }
        else if (strLower message) = "edit" then
          let u := update_session w.sessions now session_id none
            (some fun dd => { dd with current_step := some "recipient" })
          { resp := .invEditRestart, session_id := session_id,
            state := SessionState.INVOICE_CREATION, world := { w with sessions := u.2 } }
        else
          { resp := .invConfirmReprompt, session_id := session_id,
            state := SessionState.INVOICE_CREATION, world := w }
      else
        let u := update_session w.sessions now session_id (some SessionState.IDLE) none
        let c := clear_session_data u.2 now session_id
        { resp := .invUnknownStep, session_id := session_id,
          state := SessionState.IDLE, world := { w with sessions := c.2 } }

/-- Function `process_expense_step` (lines 644-849).  No claim exercises or
observes the expense flow, so its internal behaviour (session updates,
date parsing, the final `record_transaction` call) is not modelled; the
dispatch target is marked with a dedicated tag. -/
def process_expense_step (w : World) (_now : ℕ) (_message : String)
    (session_id : Option String) : MsgResult :=
  { resp := .stepUnmodeled "expense", session_id := session_id,
    state := SessionState.EXPENSE_RECORDING, world := w }

/-- Function `process_payment_step` (lines 851-1039).  Not modelled, as for the
expense flow: no claim exercises or observes it. -/
def process_payment_step (w : World) (_now : ℕ) (_message : String)
    (session_id : Option String) : MsgResult :=
  { resp := .stepUnmodeled "payment", session_id := session_id,
    state := SessionState.PAYMENT_RECORDING, world := w }

/-- Function `process_ledger_step` (lines 1041-1049): a placeholder in the source
that resets the state to idle. -/
def process_ledger_step (w : World) (now : ℕ) (_message : String)
    (session_id : Option String) : MsgResult :=
  let u := update_session w.sessions now session_id (some SessionState.IDLE) none
  { resp := .ledgerStepPlaceholder, session_id := session_id,
    state := SessionState.IDLE, world := { w with sessions := u.2 } }

/-- Function `process_initial_command(message, session_id)` (lines 132-264): the
idle-state router.  The flow-starting branches are modelled in full; the
one-shot report commands (ledger/summary/invoice viewing, menu, help,
financial report, tax advisory) read the stores without touching any
session, so they are modelled as tags with the world unchanged; the
one-line direct commands and the free-text fallback are modelled as
dispatch tags only (their data-store effects are exercised by no claim). -/
def process_initial_command_core (w : World) (now : ℕ) (message : String)
    (session_id : Option String) : Resp × String × World :=
  let ml := (strLower message)
  if strContains ml "create invoice" || strContains ml "new invoice" ||
      strContains ml "generate invoice" then
    let c := clear_session_data w.sessions now session_id
    let u := update_session c.2 now session_id (some SessionState.INVOICE_CREATION)
      (some fun dd =>
        { dd with
            current_step := some "recipient",
            flow_path := some ["recipient", "recipient_gst", "sender_gst",
                               "place_of_supply", "items", "confirm"] })
    (.invoiceFlowStarted, SessionState.INVOICE_CREATION, { w with sessions := u.2 })
  else if strContains ml "record expense" || strContains ml "add expense" ||
      strContains ml "new expense" then
    let u := update_session w.sessions now session_id (some SessionState.EXPENSE_RECORDING)
      (some fun dd => { dd with current_step := some "amount" })
    (.expenseFlowStarted, SessionState.EXPENSE_RECORDING, { w with sessions := u.2 })
  else if strContains ml "record payment" || strContains ml "payment received" ||
      strContains ml "add payment" then
    let u := update_session w.sessions now session_id (some SessionState.PAYMENT_RECORDING)
      (some fun dd => { dd with current_step := some "from_party" })
    (.paymentFlowStarted, SessionState.PAYMENT_RECORDING, { w with sessions := u.2 })
  else if strContains ml "show ledger" || strContains ml "view ledger" then
    (.oneShot "show_ledger", SessionState.IDLE, w)
  else if strContains ml "expense summary" || strContains ml "show expenses" then
    (.oneShot "expense_summary", SessionState.IDLE, w)
  else if strContains ml "show invoice" || strContains ml "view invoice" then
    (.oneShot "view_invoice", SessionState.IDLE, w)
  else if ml = "menu" then
    (.oneShot "menu", SessionState.IDLE, w)
  else if ml = "help" || ml = "?" then
    (.oneShot "help", SessionState.IDLE, w)
  else if strContains ml "financial report" || strContains ml "financial summary" then
    (.oneShot "financial_report", SessionState.IDLE, w)
  else if is_tax_query message then
    (.oneShot "tax", SessionState.IDLE, w)
  else if (strContains ml "invoice to" || strContains ml "invoice for" ||
      strContains ml "create invoice") && hasRupeeAmount ml then
    (.directUnmodeled "invoice", SessionState.IDLE, w)
  else if (strContains ml "expense" || strContains ml "spent" || strContains ml "paid" ||
      strContains ml "bill" || strContains ml "purchase") && searchCurrencyAmount ml then
    (.directUnmodeled "expense", SessionState.IDLE, w)
  else if (strContains ml "payment" || strContains ml "received" ||
      strContains ml "collected" || strContains ml "earned" ||
      strContains ml "income") && searchCurrencyAmount ml then
    (.directUnmodeled "payment", SessionState.IDLE, w)
  else
    (.freeTextUnmodeled, SessionState.IDLE, w)

/-- Function `process_initial_command(message, session_id)` returns the core
triple with the session id unchanged, as every branch of the source
returns its `session_id` argument verbatim. -/
def process_initial_command (w : World) (now : ℕ) (message : String)
    (session_id : Option String) : MsgResult :=
  let r := process_initial_command_core w now message session_id
  { resp := r.1, session_id := session_id, state := r.2.1, world := r.2.2 }

/-- The state dispatch of `process_message` (lines 91-118). -/
def dispatchState (w : World) (now : ℕ) (message : String)
    (session_id : Option String) (current_state : String) : MsgResult :=
  if current_state = SessionState.IDLE then
    process_initial_command w now message session_id
  else if current_state = SessionState.INVOICE_CREATION then
    process_invoice_step w now message session_id
  else if current_state = SessionState.EXPENSE_RECORDING then
    process_expense_step w now message session_id
  else if current_state = SessionState.PAYMENT_RECORDING then
    process_payment_step w now message session_id
  else if current_state = SessionState.LEDGER_MANAGEMENT then
    process_ledger_step w now message session_id
  else
    let u := update_session w.sessions now session_id (some SessionState.IDLE) none
    { resp := .unknownStateReset, session_id := session_id,
      state := SessionState.IDLE, world := { w with sessions := u.2 } }

/-- Function `process_message(message, session_id)` (lines 63-130): the global
cancel check runs first, before any session lookup or state dispatch;
then the session is fetched, a missing or expired one is transparently
replaced by a fresh idle session, and the message is dispatched on the
session state. -/
def process_message (w : World) (now : ℕ) (message : String)
    (session_id : Option String) : MsgResult :=
  if cancelTokens.contains (strLower message) then
    let w :=
      if truthy session_id then
        let u := update_session w.sessions now session_id (some SessionState.IDLE) none
        let c := clear_session_data u.2 now session_id
        { w with sessions := c.2 }
      else w
    { resp := .cancelAck, session_id := session_id,
      state := SessionState.IDLE, world := w }
  else
    let g := get_session w.sessions now session_id
    match g.1 with
    | some s => dispatchState { w with sessions := g.2 } now message session_id s.state
    | none =>
      let c := create_session g.2 now
      let sid := some c.1
      let g2 := get_session c.2 now sid
      match g2.1 with
      | some s => dispatchState { w with sessions := g2.2 } now message sid s.state
      | none =>
        let u := update_session g2.2 now sid (some SessionState.IDLE) none
        { resp := .errorReset, session_id := sid, state := SessionState.IDLE,
          world := { w with sessions := u.2 } }

/-! ## Helper lemmas -/

section DictLemmas

variable {κ α : Type} [BEq κ] [LawfulBEq κ]

@[simp]
theorem dget_dset_self (d : List (κ × α)) (k : κ) (v : α) :
    dget (dset d k v) k = some v := by
  induction d with
  | nil => simp [dget, dset]
  | cons p rest ih =>
    by_cases h : p.1 == k
    · simp [dget, dset, h]
    · simp [dget, dset, h, ih]

theorem dget_dset_ne (d : List (κ × α)) (k k' : κ) (v : α) (h : (k' == k) = false) :
    dget (dset d k v) k' = dget d k' := by
  have h' : k' ≠ k := by simpa using h
  have h1 : (k == k') = false := by simpa using Ne.symm h'
  induction d with
  | nil => simp [dget, dset, h1]
  | cons p rest ih =>
    by_cases hp : p.1 == k
    · have hpk : p.1 = k := by simpa using hp
      have h2 : (p.1 == k') = false := by rw [hpk]; exact h1
      simp [dget, dset, hp, h1, h2]
    · simp only [dset, hp]
      by_cases hp' : p.1 == k'
      · simp [dget, hp']
      · simp [dget, hp', ih]

end DictLemmas

/-- A string known to be nonempty is not `isEmpty`. -/
theorem isEmpty_false_of_ne (s : String) (h : s ≠ "") : s.isEmpty = false := by
  rw [Bool.eq_false_iff]
  intro hh
  exact h ((String.isEmpty_iff s).mp hh)

/-- The generated session id is never the empty string. -/
theorem mkSessionId_ne_empty (n : ℕ) : mkSessionId n ≠ "" := by
  intro h
  have := congrArg String.data h
  simp [mkSessionId, String.data_append] at this

theorem mkSessionId_isEmpty (n : ℕ) : (mkSessionId n).isEmpty = false :=
  isEmpty_false_of_ne _ (mkSessionId_ne_empty n)

/-! ## The ledger balance invariant -/

/-- The sum of the amounts of a ledger's entries of the given type. -/
def entryTypeSum (ty : String) (es : List LedgerEntry) : Money :=
  moneySum ((es.filter (fun e => e.type == ty)).map (·.amount))

/-- The stored running balance agrees with the entries:
balance equals the invoice-entry sum minus the payment-entry sum. -/
def ledger_balanced (L : Ledger) : Prop :=
  L.balance = entryTypeSum "invoice" L.entries - entryTypeSum "payment" L.entries

/-- One call of `update_ledger`, as data for a sequence of operations. -/
structure LedgerOp where
  name : Option String
  entry_type : String
  amount : Money
  reason : Option String
deriving DecidableEq, Repr

/-- A sequence of `update_ledger` calls, applied in order. -/
def applyLedgerOps (ops : List LedgerOp) (ledgers : Ledgers) : Ledgers :=
  ops.foldl (fun ls op => update_ledger ls op.name op.entry_type op.amount op.reason) ledgers

theorem entryTypeSum_append (ty : String) (es : List LedgerEntry) (e : LedgerEntry) :
    entryTypeSum ty (es ++ [e]) =
      entryTypeSum ty es + (if e.type = ty then e.amount else 0) := by
  simp only [entryTypeSum, List.filter_append, List.map_append, moneySum_append]
  by_cases h : e.type = ty
  · have hb : (e.type == ty) = true := by simpa using h
    apply Money.val_inj
    simp [List.filter, h, hb, moneySum]
  · have hb : (e.type == ty) = false := by simpa using h
    apply Money.val_inj
    simp [List.filter, h, hb, moneySum]

/-- The new ledger written by one `update_ledger` call is balanced
whenever the ledger it starts from is. -/
theorem update_ledger_preserves (ls : Ledgers)
    (hls : ∀ n L, dget ls n = some L → ledger_balanced L)
    (name : Option String) (ty : String) (amt : Money) (rsn : Option String)
    (n : Option String) (L : Ledger)
    (h : dget (update_ledger ls name ty amt rsn) n = some L) : ledger_balanced L := by
  have hempty : ledger_balanced { entries := [], balance := 0 } := by
    unfold ledger_balanced entryTypeSum
    apply Money.val_inj
    simp [moneySum]
  by_cases hn : (n == name) = true
  · have hn' : n = name := by simpa using hn
    subst hn'
    rw [update_ledger, dget_dset_self] at h
    have hcur : ledger_balanced ((dget ls n).getD { entries := [], balance := 0 }) := by
      cases hc : dget ls n with
      | none => simpa [hc] using hempty
      | some c => simpa [hc] using hls n c hc
    cases h
    unfold ledger_balanced at hcur ⊢
    simp only
    rw [entryTypeSum_append, entryTypeSum_append]
    apply Money.val_inj
    have hv := congrArg Money.val hcur
    simp only [Money.val_sub] at hv
    by_cases h1 : ty = "invoice"
    · simp [h1, Money.val_add, Money.val_sub, hv]
      ring
    · by_cases h2 : ty = "payment"
      · simp [h1, h2, Money.val_add, Money.val_sub, hv]
        ring
      · simp [h1, h2, Money.val_add, Money.val_sub, hv]
  · have hn' : (n == name) = false := by simpa using hn
    rw [update_ledger, dget_dset_ne _ _ _ _ hn'] at h
    exact hls n L h

theorem applyLedgerOps_preserves (ops : List LedgerOp) (ls : Ledgers)
    (hls : ∀ n L, dget ls n = some L → ledger_balanced L) :
    ∀ n L, dget (applyLedgerOps ops ls) n = some L → ledger_balanced L := by
  induction ops generalizing ls with
  | nil => simpa [applyLedgerOps] using hls
  | cons op rest ih =>
    intro n L h
    have step := fun n L h =>
      update_ledger_preserves ls hls op.name op.entry_type op.amount op.reason n L h
    exact ih _ step n L (by simpa [applyLedgerOps] using h)

/-- C3: for every party and after every sequence of `update_ledger`
operations starting from the fresh ledger store, the stored running
balance equals the sum of the amounts of the entries of type
`"invoice"` minus the sum of the amounts of the entries of type
`"payment"`. -/
theorem C3_ledger_balance_invariant (ops : List LedgerOp) (n : Option String) (L : Ledger)
    (h : dget (applyLedgerOps ops []) n = some L) :
    L.balance = entryTypeSum "invoice" L.entries - entryTypeSum "payment" L.entries :=
  applyLedgerOps_preserves ops [] (by intro n L h; simp [dget] at h) n L h

/-- The concrete operation sequence of the C3 witness: an invoice of
100, a payment of 30, and an entry of an unrelated type. -/
def c3WitnessOps : List LedgerOp :=
  [{ name := some "A", entry_type := "invoice", amount := 100, reason := none },
   { name := some "A", entry_type := "payment", amount := 30, reason := none },
   { name := some "A", entry_type := "note", amount := 5, reason := none }]

/-- The ledger produced by the C3 witness operations. -/
def c3WitnessLedger : Ledger :=
  { entries :=
      [{ type := "invoice", amount := 100, reason := none },
       { type := "payment", amount := 30, reason := none },
       { type := "note", amount := 5, reason := none }],
    balance := 70 }

/-- Witness for C3: the concrete sequence yields a ledger with balance 70
that satisfies the invariant. -/
theorem C3_ledger_balance_invariant_witness :
    dget (applyLedgerOps c3WitnessOps []) (some "A") = some c3WitnessLedger ∧
    c3WitnessLedger.balance =
      entryTypeSum "invoice" c3WitnessLedger.entries -
        entryTypeSum "payment" c3WitnessLedger.entries :=
  ⟨by decide, C3_ledger_balance_invariant c3WitnessOps (some "A") c3WitnessLedger (by decide)⟩

/-! ## C2 — the sign convention of `record_transaction` -/

/-- C2 counterexample: the claim states that an expense posts an
`"invoice"`-typed entry that increases the party's balance by the
amount.  Recording an expense of 500 against a fresh ledger (balance 0)
yields balance `0 - 500`, not `0 + 500`: the code passes the negated
amount, so the balance decreases. -/
theorem C2_expense_increases_balance_counterexample :
    (dget (record_transaction dataState0 "t1" "expense" (some "Office Mart") (.num 500)
        (some "Supplies") none).2.ledgers (some "Office Mart")).map Ledger.balance =
      some ((0 : Money) - 500) ∧
    ((0 : Money) - 500) ≠ ((0 : Money) + 500) := by
  constructor
  · decide
  · decide

/-- C2 (amended): for every `record_transaction` call with a truthy
counterparty name and a numeric amount, type `"income"` posts a
LedgerEntry of type `"payment"` carrying the amount and reduces the
party's balance by the amount, and type `"expense"` posts a LedgerEntry
of type `"invoice"` carrying the negated amount, likewise reducing the
party's balance by the amount (not increasing it). -/
theorem C2_record_transaction_sign_convention (st : DataState) (genId : String)
    (n : String) (q : Money) (category notes : Option String)
    (h : truthy (some n) = true) :
    (record_transaction st genId "income" (some n) (.num q) category notes).1 = true ∧
    dget (record_transaction st genId "income" (some n) (.num q) category notes).2.ledgers
        (some n) =
      some { entries :=
               ((dget st.ledgers (some n)).getD { entries := [], balance := 0 }).entries ++
                 [{ type := "payment", amount := q, reason := pyOr category notes }],
             balance :=
               ((dget st.ledgers (some n)).getD { entries := [], balance := 0 }).balance - q } ∧
    (record_transaction st genId "expense" (some n) (.num q) category notes).1 = true ∧
    dget (record_transaction st genId "expense" (some n) (.num q) category notes).2.ledgers
        (some n) =
      some { entries :=
               ((dget st.ledgers (some n)).getD { entries := [], balance := 0 }).entries ++
                 [{ type := "invoice", amount := -q, reason := pyOr category notes }],
             balance :=
               ((dget st.ledgers (some n)).getD { entries := [], balance := 0 }).balance - q } := by
  refine ⟨?_, ?_, ?_, ?_⟩ <;>
    simp [record_transaction, PyVal.toAmount?, h, update_ledger, dget_dset_self]
  apply Money.val_inj
  simp [sub_eq_add_neg]

/-- Witness for C2 at a concrete call: income and expense of 500 against
the party "Office Mart" on fresh stores. -/
theorem C2_record_transaction_sign_convention_witness :
    (record_transaction dataState0 "t1" "income" (some "Office Mart") (.num 500)
        (some "Supplies") none).1 = true ∧
    dget (record_transaction dataState0 "t1" "income" (some "Office Mart") (.num 500)
        (some "Supplies") none).2.ledgers (some "Office Mart") =
      some { entries :=
               ((dget dataState0.ledgers (some "Office Mart")).getD
                   { entries := [], balance := 0 }).entries ++
                 [{ type := "payment", amount := 500,
                    reason := pyOr (some "Supplies") none }],
             balance :=
               ((dget dataState0.ledgers (some "Office Mart")).getD
                   { entries := [], balance := 0 }).balance - 500 } ∧
    (record_transaction dataState0 "t1" "expense" (some "Office Mart") (.num 500)
        (some "Supplies") none).1 = true ∧
    dget (record_transaction dataState0 "t1" "expense" (some "Office Mart") (.num 500)
        (some "Supplies") none).2.ledgers (some "Office Mart") =
      some { entries :=
               ((dget dataState0.ledgers (some "Office Mart")).getD
                   { entries := [], balance := 0 }).entries ++
                 [{ type := "invoice", amount := -500,
                    reason := pyOr (some "Supplies") none }],
             balance :=
               ((dget dataState0.ledgers (some "Office Mart")).getD
                   { entries := [], balance := 0 }).balance - 500 } :=
  C2_record_transaction_sign_convention dataState0 "t1" "Office Mart" 500
    (some "Supplies") none (by decide)

/-! ## C4 — the per-item IGST/CGST+SGST split -/

/-- The GST split computed by `processItem`: the whole GST goes to IGST
for an interstate classification, and is halved into CGST and SGST
otherwise. -/
theorem processItem_gst_split (g : Money) (pos : Option String)
    (ad : Option AdditionalDetails) (i : ItemInput) (pi : ProcessedItem)
    (h : processItem g pos ad i = some pi) :
    (isInterstate pos ad = true →
      pi.igst_amount = pi.gst_amount ∧ pi.cgst_amount = 0 ∧ pi.sgst_amount = 0) ∧
    (isInterstate pos ad = false →
      pi.igst_amount = 0 ∧ pi.cgst_amount = pi.gst_amount / 2 ∧
        pi.sgst_amount = pi.gst_amount / 2) := by
  unfold processItem at h
  cases hamt : (i.amount.getD (.num 0)).toAmount? with
  | none => rw [hamt] at h; exact absurd h (by simp)
  | some amt =>
    rw [hamt] at h
    simp only [Option.some.injEq] at h
    subst h
    cases hi : isInterstate pos ad <;> simp [hi]

theorem processItems_mem (g : Money) (pos : Option String)
    (ad : Option AdditionalDetails) (items : List ItemInput)
    (l : List ProcessedItem) (h : processItems g pos ad items = some l) :
    ∀ pi ∈ l, ∃ i ∈ items, processItem g pos ad i = some pi := by
  induction items generalizing l with
  | nil =>
    unfold processItems at h
    simp only [Option.some.injEq] at h
    subst h
    intro pi hpi
    exact absurd hpi (by simp)
  | cons i rest ih =>
    unfold processItems at h
    cases h1 : processItem g pos ad i with
    | none => rw [h1] at h; exact absurd h (by simp)
    | some pi0 =>
      rw [h1] at h
      cases h2 : processItems g pos ad rest with
      | none => rw [h2] at h; exact absurd h (by simp)
      | some rest' =>
        rw [h2] at h
        simp only [Option.some.injEq] at h
        subst h
        intro pi hpi
        rcases List.mem_cons.mp hpi with hhd | htl
        · exact ⟨i, List.mem_cons_self i rest, by rw [hhd]; exact h1⟩
        · obtain ⟨j, hj, hpj⟩ := ih rest' h2 pi htl
          exact ⟨j, List.mem_cons_of_mem i hj, hpj⟩

/-- Every processed item of an invoice built by `create_invoice` is the
image of some input item (or of the synthesised default item) under
`processItem`. -/
theorem create_invoice_items_source (st : DataState) (genId : String)
    (recipient : Option String) (items : List ItemInput)
    (rgst sgst cin : Option String) (grate : Money) (pos : Option String)
    (rc : Bool) (ad : Option AdditionalDetails) (inv : Invoice) (st2 : DataState)
    (h : create_invoice st genId recipient items rgst sgst cin grate pos rc ad =
      (some inv, st2)) :
    ∀ pi ∈ inv.items, ∃ i, processItem grate pos ad i = some pi := by
  unfold create_invoice at h
  cases hil : resolvedItems grate ad items with
  | none => simp only [hil] at h; exact absurd h (by simp)
  | some items' =>
    simp only [hil] at h
    cases hp : processItems grate pos ad items' with
    | none => simp only [hp] at h; exact absurd h (by simp)
    | some processed =>
      simp only [hp, Prod.mk.injEq, Option.some.injEq] at h
      obtain ⟨hinv, -⟩ := h
      subst hinv
      intro pi hpi
      obtain ⟨i, -, hproc⟩ := processItems_mem grate pos ad items' processed hp pi hpi
      exact ⟨i, hproc⟩

/-- C4 counterexample: the claim states that exactly one of
`igst_amount > 0` or `cgst_amount > 0 ∧ sgst_amount > 0` holds for every
item of every invoice.  `create_invoice` with an empty item list and no
additional details synthesises a default item of amount 0, whose GST
amounts are all zero, so neither alternative holds. -/
theorem C4_gst_split_exclusive_counterexample :
    ((create_invoice dataState0 "invoice_1" (some "A") [] none none none 18 none false
        none).1.map (fun inv =>
          inv.items.map (fun pi => (pi.igst_amount, pi.cgst_amount, pi.sgst_amount)))) =
      some [((0 : Money), (0 : Money), (0 : Money))] ∧
    ¬(((0 : Money) < 0) ∨ ((0 : Money) < 0 ∧ (0 : Money) < 0)) := by
  constructor
  · decide
  · decide

/-- C4 (amended): for every item of every invoice produced by
`create_invoice`, IGST never coexists with CGST/SGST; whenever the item
carries a positive GST amount, exactly one of `igst_amount > 0` or
`cgst_amount > 0 ∧ sgst_amount > 0` holds; and
`cgst_amount = sgst_amount = gst_amount / 2` when intrastate while
`igst_amount = gst_amount` when interstate.  (The exactly-one clause
fails only for items whose GST amount is not positive, such as the
zero-amount default item.) -/
theorem C4_gst_split_exclusive (st : DataState) (genId : String)
    (recipient : Option String) (items : List ItemInput)
    (rgst sgst cin : Option String) (grate : Money) (pos : Option String)
    (rc : Bool) (ad : Option AdditionalDetails) (inv : Invoice) (st2 : DataState)
    (pi : ProcessedItem)
    (h : create_invoice st genId recipient items rgst sgst cin grate pos rc ad =
      (some inv, st2))
    (hmem : pi ∈ inv.items) :
    ¬(0 < pi.igst_amount ∧ 0 < pi.cgst_amount ∧ 0 < pi.sgst_amount) ∧
    (0 < pi.gst_amount →
      (0 < pi.igst_amount ∧ ¬(0 < pi.cgst_amount ∧ 0 < pi.sgst_amount)) ∨
      ((0 < pi.cgst_amount ∧ 0 < pi.sgst_amount) ∧ ¬0 < pi.igst_amount)) ∧
    (isInterstate pos ad = true → pi.igst_amount = pi.gst_amount) ∧
    (isInterstate pos ad = false →
      pi.cgst_amount = pi.gst_amount / 2 ∧ pi.sgst_amount = pi.gst_amount / 2 ∧
        pi.cgst_amount = pi.sgst_amount) := by
  obtain ⟨i, hproc⟩ := create_invoice_items_source st genId recipient items rgst sgst cin
    grate pos rc ad inv st2 h pi hmem
  have hsplit := processItem_gst_split grate pos ad i pi hproc
  have hzero : ¬(0 : Money) < 0 := by decide
  cases hi : isInterstate pos ad with
  | true =>
    obtain ⟨higst, hcgst, hsgst⟩ := hsplit.1 hi
    refine ⟨?_, ?_, fun _ => higst, fun hfalse => by simp [hi] at hfalse⟩
    · rw [hcgst]
      intro hc
      exact hzero hc.2.1
    · intro hg
      left
      rw [higst, hcgst]
      exact ⟨hg, fun hc => hzero hc.1⟩
  | false =>
    obtain ⟨higst, hcgst, hsgst⟩ := hsplit.2 hi
    have hhalf : 0 < pi.gst_amount → 0 < pi.gst_amount / 2 := by
      intro hg
      clear hzero
      rw [Money.lt_iff_val] at hg ⊢
      simp only [Money.val_div, Money.val_zero] at hg ⊢
      have h2 : ((2 : Money)).val = (2 : ℚ) := rfl
      rw [h2]
      linarith
    refine ⟨?_, ?_, fun htrue => by simp [hi] at htrue, fun _ => ⟨hcgst, hsgst, by rw [hcgst, hsgst]⟩⟩
    · rw [higst]
      intro hc
      exact hzero hc.1
    · intro hg
      right
      rw [higst, hcgst, hsgst]
      exact ⟨⟨hhalf hg, hhalf hg⟩, hzero⟩

/-- The invoice of the C4/C5 witness computation: one item of 100 at
18% with interstate treatment. -/
def c4WitnessItem : ProcessedItem :=
  { name := "X", hsn_code := "9983", quantity := 1, unit := "Unit",
    rate_per_unit := 100, base_amount := 100, discount := 0, discount_amount := 0,
    taxable_value := 100, gst_rate := 18, igst_amount := 18, cgst_amount := 0,
    sgst_amount := 0, gst_amount := 18, total_amount := 118 }

def c4WitnessInvoice : Invoice :=
  { id := "invoice_1", recipient := some "A", recipient_gst := none, sender_gst := none,
    place_of_supply := "Not Specified", reverse_charge := false, base_amount := 100,
    gst_amount := 18, cgst_amount := 0, sgst_amount := 0, igst_amount := 18,
    total_amount := 118,
    items := [c4WitnessItem], status := "pending" }

def c4WitnessState : DataState :=
  { invoices := [c4WitnessInvoice], transactions := [],
    ledgers := [(some "A",
      { entries := [{ type := "invoice", amount := 118, reason := some "X" }],
        balance := 118 })] }

/-- Witness for C4 at a concrete invoice: a single item of 100 at the
default 18% rate with no seller state (interstate treatment). -/
theorem C4_gst_split_exclusive_witness :
    ¬(0 < c4WitnessItem.igst_amount ∧ 0 < c4WitnessItem.cgst_amount ∧
        0 < c4WitnessItem.sgst_amount) ∧
    (0 < c4WitnessItem.gst_amount →
      (0 < c4WitnessItem.igst_amount ∧
        ¬(0 < c4WitnessItem.cgst_amount ∧ 0 < c4WitnessItem.sgst_amount)) ∨
      ((0 < c4WitnessItem.cgst_amount ∧ 0 < c4WitnessItem.sgst_amount) ∧
        ¬0 < c4WitnessItem.igst_amount)) ∧
    (isInterstate none none = true → c4WitnessItem.igst_amount = c4WitnessItem.gst_amount) ∧
    (isInterstate none none = false →
      c4WitnessItem.cgst_amount = c4WitnessItem.gst_amount / 2 ∧
        c4WitnessItem.sgst_amount = c4WitnessItem.gst_amount / 2 ∧
        c4WitnessItem.cgst_amount = c4WitnessItem.sgst_amount) :=
  C4_gst_split_exclusive dataState0 "invoice_1" (some "A")
    [{ name := some "X", amount := some (.num 100) }] none none none 18 none false none
    c4WitnessInvoice c4WitnessState c4WitnessItem (by decide) (by decide)

/-! ## C5 — invoice aggregate totals -/

/-- C5: for every invoice produced by `create_invoice`, the invoice's
`base_amount` is the sum of its items' `taxable_value`, its `gst_amount`
is the sum of its items' `gst_amount`, and its `total_amount` is
`base_amount + gst_amount`. -/
theorem C5_invoice_totals (st : DataState) (genId : String)
    (recipient : Option String) (items : List ItemInput)
    (rgst sgst cin : Option String) (grate : Money) (pos : Option String)
    (rc : Bool) (ad : Option AdditionalDetails) (inv : Invoice) (st2 : DataState)
    (h : create_invoice st genId recipient items rgst sgst cin grate pos rc ad =
      (some inv, st2)) :
    inv.base_amount = moneySum (inv.items.map (·.taxable_value)) ∧
    inv.gst_amount = moneySum (inv.items.map (·.gst_amount)) ∧
    inv.total_amount = inv.base_amount + inv.gst_amount := by
  unfold create_invoice at h
  cases hil : resolvedItems grate ad items with
  | none => simp only [hil] at h; exact absurd h (by simp)
  | some items' =>
    simp only [hil] at h
    cases hp : processItems grate pos ad items' with
    | none => simp only [hp] at h; exact absurd h (by simp)
    | some processed =>
      simp only [hp, Prod.mk.injEq, Option.some.injEq] at h
      obtain ⟨hinv, -⟩ := h
      subst hinv
      exact ⟨rfl, rfl, rfl⟩

/-- The invoice of the C5 witness: two items of 100 and 200 at 18%,
interstate treatment. -/
def c5WitnessInvoice : Invoice :=
  { id := "invoice_1", recipient := some "B", recipient_gst := none, sender_gst := none,
    place_of_supply := "Not Specified", reverse_charge := false, base_amount := 300,
    gst_amount := 54, cgst_amount := 0, sgst_amount := 0, igst_amount := 54,
    total_amount := 354,
    items :=
      [{ name := "X", hsn_code := "9983", quantity := 1, unit := "Unit",
         rate_per_unit := 100, base_amount := 100, discount := 0, discount_amount := 0,
         taxable_value := 100, gst_rate := 18, igst_amount := 18, cgst_amount := 0,
         sgst_amount := 0, gst_amount := 18, total_amount := 118 },
       { name := "Y", hsn_code := "9983", quantity := 1, unit := "Unit",
         rate_per_unit := 200, base_amount := 200, discount := 0, discount_amount := 0,
         taxable_value := 200, gst_rate := 18, igst_amount := 36, cgst_amount := 0,
         sgst_amount := 0, gst_amount := 36, total_amount := 236 }],
    status := "pending" }

def c5WitnessState : DataState :=
  { invoices := [c5WitnessInvoice], transactions := [],
    ledgers := [(some "B",
      { entries := [{ type := "invoice", amount := 354, reason := some "Multiple items" }],
        balance := 354 })] }

/-- Witness for C5 at a concrete two-item invoice. -/
theorem C5_invoice_totals_witness :
    c5WitnessInvoice.base_amount =
      moneySum (c5WitnessInvoice.items.map (·.taxable_value)) ∧
    c5WitnessInvoice.gst_amount =
      moneySum (c5WitnessInvoice.items.map (·.gst_amount)) ∧
    c5WitnessInvoice.total_amount =
      c5WitnessInvoice.base_amount + c5WitnessInvoice.gst_amount :=
  C5_invoice_totals dataState0 "invoice_1" (some "B")
    [{ name := some "X", amount := some (.num 100) },
     { name := some "Y", amount := some (.num 200) }]
    none none none 18 none false none c5WitnessInvoice c5WitnessState (by decide)

/-! ## C6 — the per-item discount/taxable/GST formulas -/

/-- C6 counterexample: the claim states
`discount_amount = amount × discount/100` for every item.  For a
negative discount the code's `discount > 0` guard yields 0 instead:
an item of amount 100 with discount −50 gets `discount_amount = 0` and
`taxable_value = 100`, while the claimed formula demands −50 and 150. -/
theorem C6_item_formulas_counterexample :
    ((create_invoice dataState0 "invoice_1" (some "A")
        [{ name := some "X", amount := some (.num 100), discount := some (-(50 : Money)) }]
        none none none 18 none false none).1.map (fun inv =>
          inv.items.map (fun pi => (pi.base_amount, pi.discount_amount, pi.taxable_value)))) =
      some [((100 : Money), 0, 100)] ∧
    (0 : Money) ≠ (100 : Money) * (-(50 : Money)) / 100 := by
  constructor
  · decide
  · decide

/-- C6 (amended): for every item processed by `create_invoice` (at its
default GST-rate argument 18) whose discount is non-negative, the
processed item satisfies `discount_amount = amount × discount/100`,
`taxable_value = amount − discount_amount = amount × (1 − discount/100)`
and `gst_amount = taxable_value × gst_rate/100`, with the rate
defaulting to 18 when the item does not specify one.  (For a negative
discount the code clamps `discount_amount` to 0 instead.) -/
theorem C6_item_formulas (pos : Option String) (ad : Option AdditionalDetails)
    (item : ItemInput) (pi : ProcessedItem)
    (hd : 0 ≤ item.discount.getD 0)
    (h : processItem 18 pos ad item = some pi) :
    pi.discount_amount = pi.base_amount * item.discount.getD 0 / 100 ∧
    pi.taxable_value = pi.base_amount - pi.discount_amount ∧
    pi.taxable_value = pi.base_amount * (1 - item.discount.getD 0 / 100) ∧
    pi.gst_amount = pi.taxable_value * (pi.gst_rate / 100) ∧
    (item.gst_rate = none → pi.gst_rate = 18) := by
  unfold processItem at h
  cases hamt : (item.amount.getD (.num 0)).toAmount? with
  | none => rw [hamt] at h; exact absurd h (by simp)
  | some amt =>
    rw [hamt] at h
    simp only [Option.some.injEq] at h
    subst h
    by_cases hpos : 0 < item.discount.getD 0
    · refine ⟨by simp [hpos], rfl, ?_, rfl, fun hn => by simp [hn]⟩
      apply Money.val_inj
      simp [hpos, Money.val_sub, Money.val_mul, Money.val_div]
      have h100 : ((100 : Money)).val = (100 : ℚ) := rfl
      have h1 : ((1 : Money)).val = (1 : ℚ) := rfl
      rw [h100, h1]
      ring
    · have hz : item.discount.getD 0 = 0 := by
        apply Money.val_inj
        rw [Money.le_iff_val] at hd
        rw [Money.lt_iff_val] at hpos
        rw [Money.val_zero] at *
        linarith
      have hif : ¬(0 : Money) < 0 := by decide
      refine ⟨?_, rfl, ?_, rfl, fun hn => by simp [hn]⟩
      · apply Money.val_inj
        simp [hz, hif, Money.val_mul, Money.val_div]
      · apply Money.val_inj
        simp [hz, hif, Money.val_sub, Money.val_mul, Money.val_div]
        have h1 : Money.val 1 = (1 : ℚ) := rfl
        rw [h1, mul_one]

/-- The processed item of the C6 witness: amount 200, discount 50%,
rate defaulted to 18. -/
def c6WitnessItem : ProcessedItem :=
  { name := "X", hsn_code := "9983", quantity := 1, unit := "Unit",
    rate_per_unit := 200, base_amount := 200, discount := 50, discount_amount := 100,
    taxable_value := 100, gst_rate := 18, igst_amount := 18, cgst_amount := 0,
    sgst_amount := 0, gst_amount := 18, total_amount := 118 }

def c6WitnessInput : ItemInput :=
  { name := some "X", amount := some (.num 200), discount := some 50 }

/-- Witness for C6 at a concrete item: amount 200 with a 50% discount. -/
theorem C6_item_formulas_witness :
    c6WitnessItem.discount_amount =
      c6WitnessItem.base_amount * c6WitnessInput.discount.getD 0 / 100 ∧
    c6WitnessItem.taxable_value =
      c6WitnessItem.base_amount - c6WitnessItem.discount_amount ∧
    c6WitnessItem.taxable_value =
      c6WitnessItem.base_amount * (1 - c6WitnessInput.discount.getD 0 / 100) ∧
    c6WitnessItem.gst_amount =
      c6WitnessItem.taxable_value * (c6WitnessItem.gst_rate / 100) ∧
    (c6WitnessInput.gst_rate = none → c6WitnessItem.gst_rate = 18) :=
  C6_item_formulas none none c6WitnessInput c6WitnessItem (by decide) (by decide)

/-! ## C7 — the interstate classification -/

/-- C7 counterexample: the claim states that when either value is absent
the comparison is unequal, so interstate treatment applies unless both
are explicitly and identically set.  With `place_of_supply` set to the
empty string and `seller_state` absent (encoded as the empty string by
the code), the raw comparison is equal and the invoice receives
intrastate treatment: `igst_amount = 0` with CGST/SGST 9 each, although
the claim demands IGST 18. -/
theorem C7_interstate_default_counterexample :
    ((create_invoice dataState0 "invoice_1" (some "A")
        [{ name := some "X", amount := some (.num 100) }]
        none none none 18 (some "") false none).1.map
      (fun inv => (inv.igst_amount, inv.cgst_amount, inv.sgst_amount, inv.gst_amount))) =
      some ((0 : Money), 9, 9, 18) ∧
    (0 : Money) ≠ (18 : Money) := by
  constructor
  · decide
  · decide

/-- C7 (amended): `create_invoice` classifies interstate exactly when
`place_of_supply` differs, as a raw case-sensitive string, from the
seller state (an absent `seller_state` being encoded as the empty
string); an absent `place_of_supply` always compares unequal, hence
interstate; and the invoice receives the corresponding IGST or
CGST/SGST treatment.  Consequently the treatment is interstate unless
both values are identically set — or `place_of_supply` equals the
empty-string encoding of an absent `seller_state`. -/
theorem C7_interstate_classification (st : DataState) (genId : String)
    (recipient : Option String) (items : List ItemInput)
    (rgst sgst cin : Option String) (grate : Money) (pos : Option String)
    (rc : Bool) (ad : Option AdditionalDetails) (inv : Invoice) (st2 : DataState)
    (h : create_invoice st genId recipient items rgst sgst cin grate pos rc ad =
      (some inv, st2)) :
    (isInterstate pos ad = false ↔ pos = some (sellerStateOf ad)) ∧
    (pos = none → isInterstate pos ad = true) ∧
    (isInterstate pos ad = true →
      inv.igst_amount = inv.gst_amount ∧ inv.cgst_amount = 0 ∧ inv.sgst_amount = 0) ∧
    (isInterstate pos ad = false →
      inv.igst_amount = 0 ∧ inv.cgst_amount = inv.gst_amount / 2 ∧
        inv.sgst_amount = inv.gst_amount / 2) := by
  have hiff : isInterstate pos ad = false ↔ pos = some (sellerStateOf ad) := by
    simp [isInterstate]
  have hnone : pos = none → isInterstate pos ad = true := by
    intro hp
    subst hp
    simp [isInterstate]
  unfold create_invoice at h
  cases hil : resolvedItems grate ad items with
  | none => simp only [hil] at h; exact absurd h (by simp)
  | some items' =>
    simp only [hil] at h
    cases hp : processItems grate pos ad items' with
    | none => simp only [hp] at h; exact absurd h (by simp)
    | some processed =>
      simp only [hp, Prod.mk.injEq, Option.some.injEq] at h
      obtain ⟨hinv, -⟩ := h
      subst hinv
      refine ⟨hiff, hnone, ?_, ?_⟩
      · intro hi
        simp [hi]
      · intro hi
        simp [hi]

def c7WitnessInvoice : Invoice := c4WitnessInvoice

/-- Witness for C7 at a concrete invoice with no place of supply and no
seller state: interstate treatment. -/
theorem C7_interstate_classification_witness :
    (isInterstate none none = false ↔ none = some (sellerStateOf none)) ∧
    ((none : Option String) = none → isInterstate none none = true) ∧
    (isInterstate none none = true →
      c7WitnessInvoice.igst_amount = c7WitnessInvoice.gst_amount ∧
        c7WitnessInvoice.cgst_amount = 0 ∧ c7WitnessInvoice.sgst_amount = 0) ∧
    (isInterstate none none = false →
      c7WitnessInvoice.igst_amount = 0 ∧
        c7WitnessInvoice.cgst_amount = c7WitnessInvoice.gst_amount / 2 ∧
        c7WitnessInvoice.sgst_amount = c7WitnessInvoice.gst_amount / 2) :=
  C7_interstate_classification dataState0 "invoice_1" (some "A")
    [{ name := some "X", amount := some (.num 100) }] none none none 18 none false none
    c7WitnessInvoice c4WitnessState (by decide)

/-! ## C1 — the driven invoice-flow scenario -/

/-- The messages of the C1 scenario, in order. -/
def c1Messages : List String :=
  ["create invoice", "Acme Co", "skip", "skip", "Delhi", "Design work ₹10,000", "confirm"]

/-- Fold of `process_message` over a list of messages, threading the
returned session id and the world, at a fixed clock. -/
def driveMessages (now : ℕ) (msgs : List String) (start : Option String × World) :
    Option String × World :=
  msgs.foldl (fun p m =>
    let r := process_message p.2 now m p.1
    (r.session_id, r.world)) start

/-- The final session id and world of the C1 scenario, driven from a
fresh world with no session. -/
def c1Result : Option String × World := driveMessages 100 c1Messages (none, world0)

/-- C1 counterexample: the scenario produces exactly one invoice, but
its `igst_amount` is 0, not the claimed 1800.  The confirm step
hard-codes a default `seller_state` of `"Delhi"` (conversation_processor
line 548), which equals the collected place of supply `"Delhi"`, so the
invoice is classified intrastate. -/
theorem C1_scenario_igst_counterexample :
    c1Result.2.data.invoices.map (fun i => i.igst_amount) = [(0 : Money)] ∧
    (0 : Money) ≠ 1800 := by
  constructor
  · decide
  · decide

/-- C1 (amended): driving the invoice flow with "Acme Co", "skip",
"skip", "Delhi", "Design work ₹10,000", then "confirm" produces exactly
one invoice with base_amount 10000, gst_amount 1800 (18%), cgst_amount
900, sgst_amount 900 and igst_amount 0 (intrastate treatment, because
the confirm handler defaults seller_state to "Delhi", which equals the
place of supply), and total_amount 11800. -/
theorem C1_scenario_invoice :
    c1Result.2.data.invoices.map (fun i =>
      (i.base_amount, i.gst_amount, i.cgst_amount, i.sgst_amount, i.igst_amount,
        i.total_amount)) =
      [((10000 : Money), 1800, 900, 900, 0, 11800)] := by
  decide

/-! ## C8 — the global cancel override -/

/-- C8: for every session, in any state and with any buffered data,
processing a message equal to one of the literal cancel tokens resets
the session to Idle with all buffered fields cleared and returns the
cancellation acknowledgement, leaving the data stores untouched.  The
theorem quantifies over an arbitrary session state and store, which
captures that the check precedes any state-specific dispatch. -/
theorem C8_global_cancel (w : World) (now : ℕ) (message : String) (sid : String)
    (s : Session) (hmsg : message ∈ cancelTokens) (hsid : sid ≠ "")
    (hs : dget w.sessions sid = some s) :
    (process_message w now message (some sid)).resp = .cancelAck ∧
    (process_message w now message (some sid)).state = SessionState.IDLE ∧
    (process_message w now message (some sid)).session_id = some sid ∧
    dget (process_message w now message (some sid)).world.sessions sid =
      some { state := SessionState.IDLE, data := {}, created_at := s.created_at,
             last_updated := now } ∧
    (process_message w now message (some sid)).world.data = w.data := by
  have hm : message = "cancel" ∨ message = "exit" ∨ message = "quit" ∨
      message = "stop" ∨ message = "end" := by
    simpa [cancelTokens] using hmsg
  have hlower : cancelTokens.contains (strLower message) = true := by
    rcases hm with rfl | rfl | rfl | rfl | rfl <;> decide
  have hmem : strLower message ∈ cancelTokens := by simpa using hlower
  have hempty : sid.isEmpty = false := isEmpty_false_of_ne sid hsid
  have hidle : (SessionState.IDLE).isEmpty = false := rfl
  refine ⟨?_, ?_, ?_, ?_, ?_⟩ <;>
    simp [process_message, hlower, hmem, truthy, hempty, update_session,
      clear_session_data, hs, hidle, dget_dset_self]

/-- The world of the C8 witness: one session mid invoice flow. -/
def c8WitnessWorld : World :=
  { sessions := [("s1",
      { state := SessionState.INVOICE_CREATION,
        data := { current_step := some "items", recipient := some "Acme Co" },
        created_at := 5, last_updated := 10 })],
    data := dataState0 }

/-- Witness for C8: the token "stop" sent mid invoice flow. -/
theorem C8_global_cancel_witness :
    (process_message c8WitnessWorld 10000 "stop" (some "s1")).resp = .cancelAck ∧
    (process_message c8WitnessWorld 10000 "stop" (some "s1")).state =
      SessionState.IDLE ∧
    (process_message c8WitnessWorld 10000 "stop" (some "s1")).session_id = some "s1" ∧
    dget (process_message c8WitnessWorld 10000 "stop" (some "s1")).world.sessions "s1" =
      some { state := SessionState.IDLE, data := {}, created_at := 5,
             last_updated := 10000 } ∧
    (process_message c8WitnessWorld 10000 "stop" (some "s1")).world.data =
      c8WitnessWorld.data :=
  C8_global_cancel c8WitnessWorld 10000 "stop" "s1"
    { state := SessionState.INVOICE_CREATION,
      data := { current_step := some "items", recipient := some "Acme Co" },
      created_at := 5, last_updated := 10 }
    (by decide) (by decide) (by decide)

/-! ## C9 — session expiry, sliding refresh, and transparent re-creation -/

/-- Every branch of the idle router returns its session id unchanged. -/
theorem process_initial_command_session_id (w : World) (now : ℕ) (message : String)
    (sid : Option String) :
    (process_initial_command w now message sid).session_id = sid := rfl

/-- A freshly created session is found non-expired and refreshed by
`get_session` at the same instant. -/
theorem get_session_fresh (sessions : Sessions) (now : ℕ) :
    get_session (create_session sessions now).2 now (some (mkSessionId now)) =
      (some { state := SessionState.IDLE, data := {}, created_at := now,
              last_updated := now },
       dset (create_session sessions now).2 (mkSessionId now)
         { state := SessionState.IDLE, data := {}, created_at := now,
           last_updated := now }) := by
  unfold get_session create_session
  have hne : ¬(now + SESSION_TIMEOUT < now) := by omega
  simp [mkSessionId_isEmpty, dget_dset_self, hne]

/-- C9 counterexample: the claim's third clause says every
`process_message` call carrying an expired or invalid session id
transparently creates and uses a fresh Idle session.  A cancel-token
message with an invalid id returns before the session lookup: no fresh
session is created (the store stays empty) and the stale id is returned
unchanged. -/
theorem C9_fresh_session_counterexample :
    (process_message world0 100 "cancel" (some "session_bogus")).session_id =
      some "session_bogus" ∧
    (process_message world0 100 "cancel" (some "session_bogus")).world.sessions = [] := by
  constructor
  · decide
  · decide

/-- C9 (amended): (a) `get_session` on a session idle for more than 30
minutes reports not-found and deletes it; (b) on a non-expired session
it refreshes `last_updated` as a side effect (sliding expiry); and (c) a
`process_message` call whose message is not a global cancel token and
whose session id is expired or invalid creates a fresh Idle session with
empty data, returns the fresh id, and dispatches the message through the
idle router on that fresh session. -/
theorem C9_session_lifecycle (w : World) (now : ℕ) (message : String)
    (session_id : Option String) (sid : String) (s : Session) :
    (sid ≠ "" → dget w.sessions sid = some s →
      s.last_updated + SESSION_TIMEOUT < now →
      get_session w.sessions now (some sid) = (none, ddel w.sessions sid)) ∧
    (sid ≠ "" → dget w.sessions sid = some s →
      ¬(s.last_updated + SESSION_TIMEOUT < now) →
      get_session w.sessions now (some sid) =
        (some { s with last_updated := now },
         dset w.sessions sid { s with last_updated := now })) ∧
    (strLower message ∉ cancelTokens → (get_session w.sessions now session_id).1 = none →
      (process_message w now message session_id).session_id = some (mkSessionId now) ∧
      dget (create_session (get_session w.sessions now session_id).2 now).2
          (mkSessionId now) =
        some { state := SessionState.IDLE, data := {}, created_at := now,
               last_updated := now } ∧
      process_message w now message session_id =
        process_initial_command
          { w with sessions :=
              (get_session (create_session (get_session w.sessions now session_id).2 now).2
                now (some (mkSessionId now))).2 }
          now message (some (mkSessionId now))) := by
  refine ⟨?_, ?_, ?_⟩
  · intro hsid hs hexp
    have hempty : sid.isEmpty = false := isEmpty_false_of_ne sid hsid
    simp [get_session, hempty, hs, hexp]
  · intro hsid hs hexp
    have hempty : sid.isEmpty = false := isEmpty_false_of_ne sid hsid
    simp [get_session, hempty, hs, hexp]
  · intro hnc hget
    have hc : cancelTokens.contains (strLower message) = false := by
      rw [Bool.eq_false_iff]
      intro hcc
      exact hnc (by simpa using hcc)
    have heq : process_message w now message session_id =
        process_initial_command
          { w with sessions :=
              (get_session (create_session (get_session w.sessions now session_id).2 now).2
                now (some (mkSessionId now))).2 }
          now message (some (mkSessionId now)) := by
      unfold process_message
      simp only [hc, Bool.false_eq_true, if_false]
      simp only [hget]
      rw [show (create_session (get_session w.sessions now session_id).2 now).1 =
        mkSessionId now from rfl]
      rw [get_session_fresh]
      simp [dispatchState, SessionState.IDLE]
    refine ⟨?_, ?_, heq⟩
    · rw [heq, process_initial_command_session_id]
    · unfold create_session
      rw [dget_dset_self]

/-- The store of the C9 witness: one session last touched at time 0. -/
def c9WitnessSessions : Sessions :=
  [("s1", { state := SessionState.IDLE, data := {}, created_at := 0,
            last_updated := 0 })]

/-- Witness for C9: part (a) applied at time 5000 to the expired
session, part (b) applied at time 500 to the same session while still
fresh, and part (c) applied to a non-cancel message carrying an unknown
session id. -/
theorem C9_session_lifecycle_witness :
    get_session c9WitnessSessions 5000 (some "s1") =
      (none, ddel c9WitnessSessions "s1") ∧
    get_session c9WitnessSessions 500 (some "s1") =
      (some { state := SessionState.IDLE, data := {}, created_at := 0,
              last_updated := 500 },
       dset c9WitnessSessions "s1"
         { state := SessionState.IDLE, data := {}, created_at := 0,
           last_updated := 500 }) ∧
    (process_message { sessions := c9WitnessSessions, data := dataState0 } 5000 "hello"
        (some "zzz")).session_id = some (mkSessionId 5000) := by
  refine ⟨?_, ?_, ?_⟩
  · exact ((C9_session_lifecycle { sessions := c9WitnessSessions, data := dataState0 }
      5000 "hello" (some "zzz") "s1"
      { state := SessionState.IDLE, data := {}, created_at := 0,
        last_updated := 0 }).1 (by decide) (by decide) (by decide))
  · exact ((C9_session_lifecycle { sessions := c9WitnessSessions, data := dataState0 }
      500 "hello" (some "zzz") "s1"
      { state := SessionState.IDLE, data := {}, created_at := 0,
        last_updated := 0 }).2.1 (by decide) (by decide) (by decide))
  · exact ((C9_session_lifecycle { sessions := c9WitnessSessions, data := dataState0 }
      5000 "hello" (some "zzz") "s1"
      { state := SessionState.IDLE, data := {}, created_at := 0,
        last_updated := 0 }).2.2 (by decide) (by decide)).1

/-! ## C10 — `update_session` never checks expiry -/

/-- C10: `update_session` performs no expiry check: for every session id
still present in the store — including one whose idle time exceeds the
30-minute timeout, which `get_session` would report as not-found and
delete — it returns success and refreshes the last-updated timestamp,
whereafter `get_session` finds the session again (it is revived). -/
theorem C10_update_session_ignores_expiry (sessions : Sessions) (now now2 : ℕ)
    (sid : String) (s : Session) (state : Option String)
    (patch : Option (SessData → SessData))
    (hsid : sid ≠ "") (hs : dget sessions sid = some s)
    (hexp : s.last_updated + SESSION_TIMEOUT < now) :
    (get_session sessions now (some sid)).1 = none ∧
    (get_session sessions now (some sid)).2 = ddel sessions sid ∧
    (update_session sessions now (some sid) state patch).1 = true ∧
    (dget (update_session sessions now (some sid) state patch).2 sid).map
      Session.last_updated = some now ∧
    (¬(now + SESSION_TIMEOUT < now2) →
      ((get_session (update_session sessions now (some sid) state patch).2 now2
          (some sid)).1).isSome = true) := by
  have hempty : sid.isEmpty = false := isEmpty_false_of_ne sid hsid
  refine ⟨?_, ?_, ?_, ?_, ?_⟩
  · simp [get_session, hempty, hs, hexp]
  · simp [get_session, hempty, hs, hexp]
  · simp [update_session, hempty, hs]
  · simp [update_session, hempty, hs, dget_dset_self]
  · intro hne
    simp [update_session, hempty, hs, get_session, dget_dset_self, hne]

/-- Witness for C10: the expired session of the C9 store, updated at
time 5000 and still found at time 5000. -/
theorem C10_update_session_ignores_expiry_witness :
    (get_session c9WitnessSessions 5000 (some "s1")).1 = none ∧
    (get_session c9WitnessSessions 5000 (some "s1")).2 = ddel c9WitnessSessions "s1" ∧
    (update_session c9WitnessSessions 5000 (some "s1") none none).1 = true ∧
    (dget (update_session c9WitnessSessions 5000 (some "s1") none none).2 "s1").map
      Session.last_updated = some 5000 ∧
    (¬(5000 + SESSION_TIMEOUT < 5000) →
      ((get_session (update_session c9WitnessSessions 5000 (some "s1") none none).2 5000
          (some "s1")).1).isSome = true) :=
  C10_update_session_ignores_expiry c9WitnessSessions 5000 5000 "s1"
    { state := SessionState.IDLE, data := {}, created_at := 0, last_updated := 0 }
    none none (by decide) (by decide) (by decide)




end MunimAI
